import Mathlib

set_option maxRecDepth 8192

/-!
Verification of the ARBcarbon volume-equation engine.

A shallow embedding, over the real numbers, of
`arb_carbon/equations/volume.py`: the California Air Resources Board tree
volume equations.  Each Python class method is translated to a Lean
function on `ℝ`.  NumPy conventions are rendered as follows:

* element-wise masking `v[cond] = 0` becomes `if cond then 0 else v`
  (the mask is applied after the formula, so per element the result is
  the masked value);
* `np.where(c, a, b)` becomes `if c then a else b`;
* `np.clip(x, lo, None)` becomes `max x lo`, and `np.clip(x, lo, hi)`
  becomes `min (max x lo) hi`;
* `x ** y` with a non-integer exponent becomes `Real.rpow`, `x ** n`
  with an integer literal exponent becomes the ordinary monoid power;
* `np.log10`, `np.log` and `np.exp` become `log10` (defined below),
  `Real.log` and `Real.exp`;
* division by zero follows the Lean convention `x / 0 = 0` (the Python
  code only hits the corresponding NaN/inf cases in positions that are
  immediately overwritten by a mask, or out of the claims' domains).

Python inheritance is rendered by parametrised functionals: the base
class bodies (`SoftwoodVolumeEquation`, `HardwoodVolumeEquation`, ...)
become functions taking the overridable methods (`calc_cv4`,
`calc_tarif`, ...) as arguments, and each equation class instantiates
them with its own methods, exactly mirroring Python dynamic dispatch,
whose resolution is statically known per class.

Blocks of formula text that the source duplicates verbatim across many
classes (the spec itself notes this duplication) are factored into one
parametrised definition (`dnr_cvts`, `dnr_tarif`, `pnw_tarif`,
`pillsbury_cvts`, ...), each carrying the literal source text in its
doc comment; every equation class then instantiates them with its own
constants.
-/

noncomputable section

/-- `np.log10 x`, i.e. `Real.log x / Real.log 10`. -/
def log10 (x : ℝ) : ℝ := Real.log x / Real.log 10

/-- The recurring `TERM` block
`(1.033 * (1.0 + 1.382937 * np.exp(-4.015292 * (dbh / 10.0)))) * (ba + 0.087266) - 0.174533`
with `ba = 0.005454154 * dbh**2`, appearing in every `calc_cvt` and in
the PNW-266 style `calc_cvts`. -/
def pnw_term (dbh : ℝ) : ℝ :=
  (1.033 * (1.0 + 1.382937 * Real.exp (-4.015292 * (dbh / 10.0))))
    * (0.005454154 * dbh ^ 2 + 0.087266) - 0.174533

/-- The denominator of the DNR-report-24 style `calc_tarif`:
`(1.033 * (1.0 + 1.382937 * np.exp(-4.015292 * dbh))) * (ba + 0.087266) - 0.174533`. -/
def dnr_denom (dbh : ℝ) : ℝ :=
  (1.033 * (1.0 + 1.382937 * Real.exp (-4.015292 * dbh)))
    * (0.005454154 * dbh ^ 2 + 0.087266) - 0.174533

/-- The denominator of `Eq_1.calc_tarif` and `Eq_2.calc_tarif`:
`(1.033 * (1.0 + 1.382937 * np.exp(-4.105292 * (dbh / 10.0)))) * (ba + 0.087266) - 0.174533`. -/
def dnr10_denom (dbh : ℝ) : ℝ :=
  (1.033 * (1.0 + 1.382937 * Real.exp (-4.105292 * (dbh / 10.0))))
    * (0.005454154 * dbh ^ 2 + 0.087266) - 0.174533

/-- `calc_cvts` of the DNR-report-24 family:
`cvtsl = a + b * np.log10(dbh) + c * np.log10(ht)`; `cvts = 10**cvtsl`;
`cvts[np.logical_or(dbh < 1, ht <= 0)] = 0`. -/
def dnr_cvts (a b c : ℝ) (dbh ht : ℝ) : ℝ :=
  let cvtsl := a + b * log10 dbh + c * log10 ht
  if dbh < 1 ∨ ht ≤ 0 then 0 else (10 : ℝ) ^ cvtsl

/-- `calc_tarif` of the DNR-report-24 family:
`tarif = (cvts * 0.912733) / ((1.033 * (1.0 + 1.382937 * np.exp(-4.015292 * dbh))) * (ba + 0.087266) - 0.174533)`;
`tarif[np.logical_or(dbh <= 0, ht <= 0)] = 0`. -/
def dnr_tarif (calc_cvts : ℝ → ℝ → ℝ) (dbh ht : ℝ) : ℝ :=
  let cvts := calc_cvts dbh ht
  let tarif := (cvts * 0.912733) / dnr_denom dbh
  if dbh ≤ 0 ∨ ht ≤ 0 then 0 else tarif

/-- `calc_tarif` of `Eq_1`/`Eq_2` (same as `dnr_tarif` but with the
`np.exp(-4.105292 * (dbh / 10.0))` denominator). -/
def dnr10_tarif (calc_cvts : ℝ → ℝ → ℝ) (dbh ht : ℝ) : ℝ :=
  let cvts := calc_cvts dbh ht
  let tarif := (cvts * 0.912733) / dnr10_denom dbh
  if dbh ≤ 0 ∨ ht ≤ 0 then 0 else tarif

/-- `calc_cv4` shared by the tarif-based variants:
`cv4 = tarif * (ba - 0.087266) / 0.912733`;
`cv4[np.logical_or(dbh < 5, ht <= 0)] = 0`. -/
def dnr_cv4 (calc_tarif : ℝ → ℝ → ℝ) (dbh ht : ℝ) : ℝ :=
  let ba := 0.005454154 * dbh ^ 2
  let tarif := calc_tarif dbh ht
  if dbh < 5 ∨ ht ≤ 0 then 0 else tarif * (ba - 0.087266) / 0.912733

/-- `calc_cvt` shared by the tarif-based variants:
`cvt = tarif * (0.9679 - 0.1051 * 0.5523**(dbh - 1.5)) * TERM / 0.912733`;
`cvt[np.logical_or(dbh < 1, ht <= 0)] = 0`. -/
def dnr_cvt (calc_tarif : ℝ → ℝ → ℝ) (dbh ht : ℝ) : ℝ :=
  let tarif := calc_tarif dbh ht
  if dbh < 1 ∨ ht ≤ 0 then 0
  else tarif * (0.9679 - 0.1051 * (0.5523 : ℝ) ^ (dbh - 1.5)) * pnw_term dbh / 0.912733

/-- `calc_cv8` shared by the hardwood variants `Eq_26` .. `Eq_31`:
`rc8 = 0.983 - (0.983 * 0.65**(dbh - 8.6))`; `cv8 = rc8 * cv4`;
`cv8[np.logical_or(dbh < 11, ht <= 0)] = 0`. -/
def dnr_cv8 (calc_cv4 : ℝ → ℝ → ℝ) (dbh ht : ℝ) : ℝ :=
  let cv4 := calc_cv4 dbh ht
  let rc8 := 0.983 - (0.983 * (0.65 : ℝ) ^ (dbh - 8.6))
  if dbh < 11 ∨ ht ≤ 0 then 0 else rc8 * cv4

namespace SoftwoodVolumeEquation

/-- `SoftwoodVolumeEquation.calc_cv6`, parametrised by the overridden
`calc_cv4`. -/
def calc_cv6 (calc_cv4 : ℝ → ℝ → ℝ) (dbh ht : ℝ) : ℝ :=
  let rc6 := 0.993 - (0.993 * (0.62 : ℝ) ^ (dbh - 6.0))
  let cv4 := calc_cv4 dbh ht
  let cv6 := if rc6 * cv4 > cv4 then cv4 else rc6 * cv4
  if dbh < 9 ∨ ht ≤ 0 then 0 else cv6

/-- `SoftwoodVolumeEquation.calc_sv616`; note `tarif = np.clip(tarif, 0.01, None)`
before use. -/
def calc_sv616 (calc_cv4 calc_tarif : ℝ → ℝ → ℝ) (dbh ht : ℝ) : ℝ :=
  let cv6 := calc_cv6 calc_cv4 dbh ht
  let tarif := max (calc_tarif dbh ht) 0.01
  let b4 := tarif / 0.912733
  let rs616l := 0.174439 + 0.117594 * log10 dbh * log10 b4 - 8.210585 / dbh ^ 2
    + 0.236693 * log10 b4 - 0.00001345 * (b4 ^ 2) - 0.00001937 * dbh ^ 2
  let rs616 := (10.0 : ℝ) ^ rs616l
  if dbh < 9 ∨ ht ≤ 0 then 0 else max (rs616 * cv6) 0

/-- `SoftwoodVolumeEquation.calc_sv632`; note `tarif = np.clip(tarif, 0.01, None)`
before use. -/
def calc_sv632 (calc_cv4 calc_tarif : ℝ → ℝ → ℝ) (dbh ht : ℝ) : ℝ :=
  let tarif := max (calc_tarif dbh ht) 0.01
  let sv616 := calc_sv616 calc_cv4 calc_tarif dbh ht
  let rs632 := 1.001491 - 6.924097 / tarif + 0.00001351 * dbh ^ 2
  if dbh < 9 ∨ ht ≤ 0 then 0 else max (rs632 * sv616) 0

/-- `SoftwoodVolumeEquation.calc_xint6`.  Unlike `calc_sv616`/`calc_sv632`,
the source applies no `np.clip(tarif, 0.01, None)` here: the raw
`calc_tarif` value feeds `log10(dbh * tarif)`. -/
def calc_xint6 (calc_cv4 calc_tarif : ℝ → ℝ → ℝ) (dbh ht : ℝ) : ℝ :=
  let tarif := calc_tarif dbh ht
  let cv6 := calc_cv6 calc_cv4 dbh ht
  let ri6 := -2.904154 + 3.466328 * log10 (dbh * tarif) - 0.02765985 * dbh
    - 0.00008205 * tarif ^ 2 + 11.29598 / dbh ^ 2
  if dbh < 9 ∨ ht ≤ 0 then 0 else max (ri6 * cv6) 0

end SoftwoodVolumeEquation

namespace HardwoodVolumeEquation

/-- `HardwoodVolumeEquation.calc_cv6`, parametrised by `calc_cv4x`. -/
def calc_cv6 (calc_cv4x : ℝ → ℝ → ℝ) (dbh ht : ℝ) : ℝ :=
  let cv4x := calc_cv4x dbh ht
  let rc6 := 0.993 - 0.993 * (0.62 : ℝ) ^ (dbh - 6.0)
  if dbh < 9 ∨ ht ≤ 0 then 0 else max (rc6 * cv4x) 0

/-- `HardwoodVolumeEquation.calc_sv616` (no `log10(dbh)` cross term, no
tarif clip). -/
def calc_sv616 (calc_tarifx calc_cv4x : ℝ → ℝ → ℝ) (dbh ht : ℝ) : ℝ :=
  let tarifx := calc_tarifx dbh ht
  let cv6 := calc_cv6 calc_cv4x dbh ht
  let b4 := tarifx / 0.912733
  let rs616l := 0.174439 + 0.117594 * log10 b4 - 8.210585 / dbh ^ 2
    + 0.236693 * log10 b4 - 0.00001345 * b4 ^ 2 - 0.00001937 * dbh ^ 2
  let rs616 := (10.0 : ℝ) ^ rs616l
  if dbh < 9 ∨ ht ≤ 0 then 0 else max (rs616 * cv6) 0

/-- `HardwoodVolumeEquation.calc_sv816`. -/
def calc_sv816 (calc_tarifx calc_cv4x : ℝ → ℝ → ℝ) (dbh ht : ℝ) : ℝ :=
  let sv616 := calc_sv616 calc_tarifx calc_cv4x dbh ht
  let rs816 := 0.990 - 0.58 * ((0.484 : ℝ) ^ (dbh - 9.5))
  if dbh < 11 ∨ ht ≤ 0 then 0 else max (rs816 * sv616) 0

/-- `HardwoodVolumeEquation.calc_xint6`. -/
def calc_xint6 (calc_tarifx calc_cv4x : ℝ → ℝ → ℝ) (dbh ht : ℝ) : ℝ :=
  let tarifx := calc_tarifx dbh ht
  let cv6 := calc_cv6 calc_cv4x dbh ht
  let ri6 := -2.904154 + 3.466328 * log10 (dbh * tarifx) - 0.02765985 * dbh
    - 0.00008205 * tarifx ^ 2 + 11.29598 / dbh ^ 2
  if dbh < 9 ∨ ht ≤ 0 then 0 else max (ri6 * cv6) 0

/-- `HardwoodVolumeEquation.calc_xint8`. -/
def calc_xint8 (calc_tarifx calc_cv4x : ℝ → ℝ → ℝ) (dbh ht : ℝ) : ℝ :=
  let xint6 := calc_xint6 calc_tarifx calc_cv4x dbh ht
  let ri8 := 0.990 - 0.55 * ((0.485 : ℝ) ^ (dbh - 9.5))
  if dbh < 11 ∨ ht ≤ 0 then 0 else max (xint6 * ri8) 0

end HardwoodVolumeEquation

namespace HardwoodVolumeEquation_NoX

/-- `HardwoodVolumeEquation_NoX.calc_cv4x`: the CVT correction
polynomial.  The classes `Eq_25` .. `Eq_31` inherit this. -/
def calc_cv4x (calc_cvt : ℝ → ℝ → ℝ) (dbh ht : ℝ) : ℝ :=
  let cvt := calc_cvt dbh ht
  cvt * (0.99875 - 43.336 / dbh ^ 3 - 124.717 / dbh ^ 4
    + 0.193437 * ht / dbh ^ 3 + 479.83 / (dbh ^ 3 * ht))

/-- `HardwoodVolumeEquation_NoX.calc_tarifx`: derived from CV8.  The
classes `Eq_25` .. `Eq_31` inherit this. -/
def calc_tarifx (calc_cv8 : ℝ → ℝ → ℝ) (dbh ht : ℝ) : ℝ :=
  let ba := 0.005454154 * dbh ^ 2
  let cv8 := calc_cv8 dbh ht
  cv8 * 0.912733 / (0.983 - 0.983 * (0.65 : ℝ) ^ (dbh - 8.6) * ba - 0.087266)

end HardwoodVolumeEquation_NoX

namespace HardwoodVolumeEquation_WithX

/-- `HardwoodVolumeEquation_WithX.calc_cv4x`: the pass-through
`return self.calc_cvt(dbh, ht)`.  The classes `Eq_32` .. `Eq_46`
inherit this. -/
def calc_cv4x (calc_cvt : ℝ → ℝ → ℝ) : ℝ → ℝ → ℝ := calc_cvt

/-- `HardwoodVolumeEquation_WithX.calc_tarifx`: the pass-through
`return self.calc_tarif(dbh, ht)`. -/
def calc_tarifx (calc_tarif : ℝ → ℝ → ℝ) : ℝ → ℝ → ℝ := calc_tarif

end HardwoodVolumeEquation_WithX

/-- `calc_cv4` of the PNW-266 family (`Eq_16`, `Eq_18`, `Eq_19`, `Eq_20`,
`Eq_23`), parametrised by the species-specific clipped `cf4` formula:
`cv4 = cf4 * ba * ht`; `cv4[np.logical_or(dbh < 5, ht <= 0)] = 0`. -/
def pnw_cv4 (cf4 : ℝ → ℝ → ℝ) (dbh ht : ℝ) : ℝ :=
  let ba := 0.005454154 * dbh ^ 2
  if dbh < 5 ∨ ht ≤ 0 then 0 else cf4 dbh ht * ba * ht

/-- `calc_tarif` of the PNW-266 family (`Eq_3`, `Eq_16`, `Eq_18`, `Eq_19`,
`Eq_20`, `Eq_23`): the two-regime reference-diameter-6 scheme.
`tarif_tmp = np.clip((cv4_tmp * 0.912733) / (ba_tmp - 0.087266), 0.01, None)`;
`tarif = np.where(dbh < 6.0, tarif_tmp * (0.5 * (dbh_tmp - dbh)**2 + (1.0 + 0.063 * (dbh_tmp - dbh)**2)), (cv4 * 0.912733) / (ba - 0.087266))`;
`tarif = np.clip(tarif, 0.01, None)`;
`tarif[np.logical_or(dbh <= 0, ht <= 0)] = 0`.
(The source also recomputes `cf4`/`cf4_tmp` locally but never uses them;
those dead locals are omitted here.) -/
def pnw_tarif (calc_cv4 : ℝ → ℝ → ℝ) (dbh ht : ℝ) : ℝ :=
  let ba := 0.005454154 * dbh ^ 2
  let dbh_tmp : ℝ := 6.0
  let ba_tmp := 0.005454154 * dbh_tmp ^ 2
  let cv4 := calc_cv4 dbh ht
  let cv4_tmp := calc_cv4 dbh_tmp ht
  let tarif_tmp := max ((cv4_tmp * 0.912733) / (ba_tmp - 0.087266)) 0.01
  let tarif := if dbh < 6.0 then
      tarif_tmp * (0.5 * (dbh_tmp - dbh) ^ 2 + (1.0 + 0.063 * (dbh_tmp - dbh) ^ 2))
    else (cv4 * 0.912733) / (ba - 0.087266)
  if dbh ≤ 0 ∨ ht ≤ 0 then 0 else max tarif 0.01

/-- `calc_cvts` of the PNW-266 family:
`cvts = np.where(dbh < 6.0, tarif * term, (cv4 * term) / (ba - 0.087266))`;
`cvts[np.logical_or(dbh < 1, ht <= 0)] = 0`. -/
def pnw_cvts (calc_cv4 calc_tarif : ℝ → ℝ → ℝ) (dbh ht : ℝ) : ℝ :=
  let ba := 0.005454154 * dbh ^ 2
  let term := pnw_term dbh
  let tarif := calc_tarif dbh ht
  let cv4 := calc_cv4 dbh ht
  if dbh < 1 ∨ ht ≤ 0 then 0
  else if dbh < 6.0 then tarif * term else (cv4 * term) / (ba - 0.087266)

/-- The Pillsbury-Kirkley power form `v = k * dbh**a * ht**b` with the
`dbh < 1` size mask (`calc_cvts` of `Eq_17` and `Eq_32` .. `Eq_44`). -/
def pillsbury_cvts (k a b : ℝ) (dbh ht : ℝ) : ℝ :=
  if dbh < 1 ∨ ht ≤ 0 then 0 else k * dbh ^ a * ht ^ b

/-- The Pillsbury-Kirkley power form with the `dbh < 5` size mask
(`calc_cv4` of `Eq_32` .. `Eq_44`). -/
def pillsbury_cv4 (k a b : ℝ) (dbh ht : ℝ) : ℝ :=
  if dbh < 5 ∨ ht ≤ 0 then 0 else k * dbh ^ a * ht ^ b

/-- The Pillsbury-Kirkley power form with the `dbh < 11` size mask
(`calc_cv8` of `Eq_32` .. `Eq_35`). -/
def pillsbury_cv8 (k a b : ℝ) (dbh ht : ℝ) : ℝ :=
  if dbh < 11 ∨ ht ≤ 0 then 0 else k * dbh ^ a * ht ^ b

/-- `calc_cvt` of `Eq_32` .. `Eq_44`:
`rts = 0.9679 - 0.1051 * 0.5523**(dbh - 1.5)`; `cvt = cvts * rts`;
`cvt[np.logical_or(dbh < 1, ht <= 0)] = 0`. -/
def pillsbury_cvt (calc_cvts : ℝ → ℝ → ℝ) (dbh ht : ℝ) : ℝ :=
  let cvts := calc_cvts dbh ht
  let rts := 0.9679 - 0.1051 * (0.5523 : ℝ) ^ (dbh - 1.5)
  if dbh < 1 ∨ ht ≤ 0 then 0 else cvts * rts

/-- `calc_tarif` of `Eq_32` .. `Eq_44`:
`tarif = (cv8 * 0.912733) / ((0.983 - 0.983 * 0.65**(dbh - 8.6)) * (ba - 0.087266))`;
`tarif[np.logical_or(dbh <= 0, ht <= 0)] = 0`. -/
def pillsbury_tarif (calc_cv8 : ℝ → ℝ → ℝ) (dbh ht : ℝ) : ℝ :=
  let ba := 0.005454154 * dbh ^ 2
  let cv8 := calc_cv8 dbh ht
  if dbh ≤ 0 ∨ ht ≤ 0 then 0
  else (cv8 * 0.912733) / ((0.983 - 0.983 * (0.65 : ℝ) ^ (dbh - 8.6)) * (ba - 0.087266))

/-- `calc_cv8` of `Eq_37` .. `Eq_44`: the form-class (`ff`) piecewise
table, the 9-foot form quotient and the `fc ∈ {1, 10}` flag feeding
`cv8 = k * dbh**a * ht**b * fc**c`, with the `dbh < 11` mask. -/
def pillsbury_cv8_fc (f1 f2 f3 f4 f5 k a b c : ℝ) (dbh ht : ℝ) : ℝ :=
  let ff := if dbh < 11 then f1 else if dbh < 21 then f2
    else if dbh < 31 then f3 else if dbh < 41 then f4 else f5
  let ff9ft := 100 + (ff - 100) * (9 - 4.5) / (16 - 4.5)
  let diam_9ft := ff9ft / 100.0 * dbh
  let fc : ℝ := if diam_9ft ≥ 9 ∧ ht ≥ 9 then 10 else 1
  if dbh < 11 ∨ ht ≤ 0 then 0 else k * dbh ^ a * ht ^ b * fc ^ c

namespace Eq_1

/-- `Eq_1.calc_cvts` (Douglas-fir, Brackett 1977). -/
def calc_cvts (dbh ht : ℝ) : ℝ :=
  let cvtsl := -3.21809 + 0.04948 * log10 ht * log10 dbh
    - 0.15664 * (log10 dbh) ^ 2 + 2.02132 * log10 dbh
    + 1.63408 * log10 ht - 0.16185 * (log10 ht) ^ 2
  if dbh < 1 ∨ ht ≤ 0 then 0 else (10 : ℝ) ^ cvtsl

def calc_tarif : ℝ → ℝ → ℝ := dnr10_tarif calc_cvts

def calc_cv4 : ℝ → ℝ → ℝ := dnr_cv4 calc_tarif

def calc_cvt : ℝ → ℝ → ℝ := dnr_cvt calc_tarif

end Eq_1

namespace Eq_2

/-- `Eq_2.calc_cvts` (Douglas-fir, Summerfield 1980). -/
def calc_cvts (dbh ht : ℝ) : ℝ :=
  let cvtsl := -6.110493 + 1.81306 * Real.log dbh + 1.083884 * Real.log ht
  if dbh < 1 ∨ ht ≤ 0 then 0 else Real.exp cvtsl

def calc_tarif : ℝ → ℝ → ℝ := dnr10_tarif calc_cvts

def calc_cv4 : ℝ → ℝ → ℝ := dnr_cv4 calc_tarif

def calc_cvt : ℝ → ℝ → ℝ := dnr_cvt calc_tarif

end Eq_2

namespace Eq_3

/-- The clipped cubic form factor of `Eq_3` (Douglas-fir, PNW-266):
`cf4 = np.clip(0.248569 + 0.0253524 * (ht / dbh) - 0.0000560175 * (ht**2 / dbh), 0.3, 0.4)`. -/
def cf4 (dbh ht : ℝ) : ℝ :=
  min (max (0.248569 + 0.0253524 * (ht / dbh) - 0.0000560175 * (ht ^ 2 / dbh)) 0.3) 0.4

/-- `Eq_3.calc_cv4`: like `pnw_cv4` but with an extra
`cv4 = np.where(dbh < 5.0, 0, cv4)` before the mask. -/
def calc_cv4 (dbh ht : ℝ) : ℝ :=
  let ba := 0.005454154 * dbh ^ 2
  let cv4 := cf4 dbh ht * ba * ht
  let cv4 := if dbh < 5.0 then 0 else cv4
  if dbh < 5 ∨ ht ≤ 0 then 0 else cv4

def calc_tarif : ℝ → ℝ → ℝ := pnw_tarif calc_cv4

def calc_cvts : ℝ → ℝ → ℝ := pnw_cvts calc_cv4 calc_tarif

def calc_cvt : ℝ → ℝ → ℝ := dnr_cvt calc_tarif

end Eq_3

namespace Eq_4

/-- `Eq_4.calc_cvts` (ponderosa pine, Summerfield 1980). -/
def calc_cvts (dbh ht : ℝ) : ℝ :=
  let cvtsl := -8.521558 + 1.977243 * Real.log dbh
    - 0.105288 * (Real.log ht) ^ 2 + 136.0489 / ht ^ 2 + 1.99546 * Real.log ht
  if dbh < 1 ∨ ht ≤ 0 then 0 else Real.exp cvtsl

def calc_tarif : ℝ → ℝ → ℝ := dnr_tarif calc_cvts

def calc_cv4 : ℝ → ℝ → ℝ := dnr_cv4 calc_tarif

def calc_cvt : ℝ → ℝ → ℝ := dnr_cvt calc_tarif

end Eq_4

namespace Eq_5

/-- The clipped cubic form factor of `Eq_5` (ponderosa pine, PNW-266):
`cf4 = np.clip(0.402060 - 0.899914 * (1 / dbh), 0.3, 0.4)`. -/
def cf4 (dbh : ℝ) : ℝ := min (max (0.402060 - 0.899914 * (1 / dbh)) 0.3) 0.4

/-- `Eq_5.calc_cv4`: `cv4 = np.where(dbh >= 5.0, cf4 * ba * ht, 0)` then
the mask. -/
def calc_cv4 (dbh ht : ℝ) : ℝ :=
  let ba := 0.005454154 * dbh ^ 2
  let cv4 := if dbh ≥ 5.0 then cf4 dbh * ba * ht else 0
  if dbh < 5 ∨ ht ≤ 0 then 0 else cv4

/-- `Eq_5.calc_tarif`: the two-regime scheme with `cv4`/`cv4_tmp`
inlined from `cf4` (not routed through `calc_cv4`). -/
def calc_tarif (dbh ht : ℝ) : ℝ :=
  let ba := 0.005454154 * dbh ^ 2
  let dbh_tmp : ℝ := 6.0
  let ba_tmp := 0.005454154 * dbh_tmp ^ 2
  let cv4 := cf4 dbh * ba * ht
  let cv4_tmp := cf4 dbh_tmp * ba_tmp * ht
  let tarif_tmp := max ((cv4_tmp * 0.912733) / (ba_tmp - 0.087266)) 0.01
  let tarif := if dbh < 6.0 then
      tarif_tmp * (0.5 * (dbh_tmp - dbh) ^ 2 + (1.0 + 0.063 * (dbh_tmp - dbh) ^ 2))
    else (cv4 * 0.912733) / (ba - 0.087266)
  if dbh ≤ 0 ∨ ht ≤ 0 then 0 else max tarif 0.01

/-- `Eq_5.calc_cvts`:
`cvts = np.where(dbh >= 6.0, (cv4 * term) / (ba - 0.087266), tarif * term)`
then the mask. -/
def calc_cvts (dbh ht : ℝ) : ℝ :=
  let ba := 0.005454154 * dbh ^ 2
  let term := pnw_term dbh
  let cv4 := calc_cv4 dbh ht
  let tarif := calc_tarif dbh ht
  if dbh < 1 ∨ ht ≤ 0 then 0
  else if dbh ≥ 6.0 then (cv4 * term) / (ba - 0.087266) else tarif * term

def calc_cvt : ℝ → ℝ → ℝ := dnr_cvt calc_tarif

end Eq_5

namespace Eq_6

/-- `Eq_6.calc_cvts` (western hemlock, DNR note 27): the DNR log-log
form with an extra `- 0.00568 * dbh` term. -/
def calc_cvts (dbh ht : ℝ) : ℝ :=
  let cvtsl := -2.72170 + 2.00857 * log10 dbh + 1.08620 * log10 ht - 0.00568 * dbh
  if dbh < 1 ∨ ht ≤ 0 then 0 else (10 : ℝ) ^ cvtsl

def calc_tarif : ℝ → ℝ → ℝ := dnr_tarif calc_cvts

def calc_cv4 : ℝ → ℝ → ℝ := dnr_cv4 calc_tarif

def calc_cvt : ℝ → ℝ → ℝ := dnr_cvt calc_tarif

end Eq_6

namespace Eq_7

/-- `Eq_7.calc_cvts` (western hemlock, Browne 1962). -/
def calc_cvts : ℝ → ℝ → ℝ := dnr_cvts (-2.663834) 1.79023 1.124873

def calc_tarif : ℝ → ℝ → ℝ := dnr_tarif calc_cvts

def calc_cv4 : ℝ → ℝ → ℝ := dnr_cv4 calc_tarif

def calc_cvt : ℝ → ℝ → ℝ := dnr_cvt calc_tarif

end Eq_7

namespace Eq_8

/-- `Eq_8.calc_cvts` (western redcedar interior, DNR report 24). -/
def calc_cvts : ℝ → ℝ → ℝ := dnr_cvts (-2.464614) 1.701993 1.067038

def calc_tarif : ℝ → ℝ → ℝ := dnr_tarif calc_cvts

def calc_cv4 : ℝ → ℝ → ℝ := dnr_cv4 calc_tarif

def calc_cvt : ℝ → ℝ → ℝ := dnr_cvt calc_tarif

end Eq_8

namespace Eq_9

/-- `Eq_9.calc_cvts` (western redcedar coast, DNR report 24). -/
def calc_cvts : ℝ → ℝ → ℝ := dnr_cvts (-2.379642) 1.682300 1.039712

def calc_tarif : ℝ → ℝ → ℝ := dnr_tarif calc_cvts

def calc_cv4 : ℝ → ℝ → ℝ := dnr_cv4 calc_tarif

def calc_cvt : ℝ → ℝ → ℝ := dnr_cvt calc_tarif

end Eq_9

namespace Eq_10

/-- `Eq_10.calc_cvts` (true firs interior, DNR report 24). -/
def calc_cvts : ℝ → ℝ → ℝ := dnr_cvts (-2.502332) 1.864963 1.004903

def calc_tarif : ℝ → ℝ → ℝ := dnr_tarif calc_cvts

def calc_cv4 : ℝ → ℝ → ℝ := dnr_cv4 calc_tarif

def calc_cvt : ℝ → ℝ → ℝ := dnr_cvt calc_tarif

end Eq_10

namespace Eq_11

/-- `Eq_11.calc_cvts` (true firs coast, DNR report 24). -/
def calc_cvts : ℝ → ℝ → ℝ := dnr_cvts (-2.575642) 1.806775 1.094665

def calc_tarif : ℝ → ℝ → ℝ := dnr_tarif calc_cvts

def calc_cv4 : ℝ → ℝ → ℝ := dnr_cv4 calc_tarif

def calc_cvt : ℝ → ℝ → ℝ := dnr_cvt calc_tarif

end Eq_11

namespace Eq_12

/-- `Eq_12.calc_cvts` (Sitka spruce interior, DNR report 24). -/
def calc_cvts : ℝ → ℝ → ℝ := dnr_cvts (-2.539944) 1.841226 1.034051

def calc_tarif : ℝ → ℝ → ℝ := dnr_tarif calc_cvts

def calc_cv4 : ℝ → ℝ → ℝ := dnr_cv4 calc_tarif

def calc_cvt : ℝ → ℝ → ℝ := dnr_cvt calc_tarif

end Eq_12

namespace Eq_13

/-- `Eq_13.calc_cvts` (Sitka spruce mature, DNR report 24). -/
def calc_cvts : ℝ → ℝ → ℝ := dnr_cvts (-2.700574) 1.754171 1.164531

def calc_tarif : ℝ → ℝ → ℝ := dnr_tarif calc_cvts

def calc_cv4 : ℝ → ℝ → ℝ := dnr_cv4 calc_tarif

def calc_cvt : ℝ → ℝ → ℝ := dnr_cvt calc_tarif

end Eq_13

namespace Eq_14

/-- `Eq_14.calc_cvts` (other junipers, Chojnacky 1985): the
root-collar-diameter form with the `stems` argument (default `1` in the
source) and the 0.1 cubic-foot floor
`np.clip((...)**3, 0.1, None)`. -/
def calc_cvts (drc ht stems : ℝ) : ℝ :=
  let factor := if drc ≥ 3 ∧ ht > 0 then drc * drc * ht else 0
  let s : ℝ := if stems > 1 then 0 else 1
  if drc < 1 ∨ ht ≤ 0 then 0
  else max ((-0.13386 + (0.133726 * (factor ^ ((1 : ℝ) / 3))) + (0.036329 * s)) ^ 3) 0.1

end Eq_14

namespace Eq_14_1

/-- `Eq_14_1.calc_cvts` (singleleaf pinyon, Chojnacky 1985). -/
def calc_cvts (drc ht stems : ℝ) : ℝ :=
  let factor := if drc ≥ 3 ∧ ht > 0 then drc * drc * ht else 0
  let s : ℝ := if stems > 1 then 0 else 1
  if drc < 1 ∨ ht ≤ 0 then 0
  else max ((-0.14240 + (0.148190 * (factor ^ ((1 : ℝ) / 3))) - (0.16712 * s)) ^ 3) 0.1

end Eq_14_1

namespace Eq_14_2

/-- `Eq_14_2.calc_cvts` (Rocky Mountain juniper, Chojnacky 1985). -/
def calc_cvts (drc ht : ℝ) : ℝ :=
  let factor := if drc ≥ 3 ∧ ht > 0 then drc * drc * ht else 0
  if drc < 1 ∨ ht ≤ 0 then 0
  else max ((0.02434 + (0.119106 * (factor ^ ((1 : ℝ) / 3)))) ^ 3) 0.1

end Eq_14_2

namespace Eq_15

/-- `Eq_15.calc_cvts` (lodgepole pine, DNR report 24). -/
def calc_cvts : ℝ → ℝ → ℝ := dnr_cvts (-2.615591) 1.847504 1.085772

def calc_tarif : ℝ → ℝ → ℝ := dnr_tarif calc_cvts

def calc_cv4 : ℝ → ℝ → ℝ := dnr_cv4 calc_tarif

def calc_cvt : ℝ → ℝ → ℝ := dnr_cvt calc_tarif

end Eq_15

namespace Eq_16

/-- The clipped cubic form factor of `Eq_16` (lodgepole pine, PNW-266):
`cf4 = np.clip(0.422709 - 0.0000612236 * (ht**2 / dbh), 0.3, 0.4)`. -/
def cf4 (dbh ht : ℝ) : ℝ :=
  min (max (0.422709 - 0.0000612236 * (ht ^ 2 / dbh)) 0.3) 0.4

def calc_cv4 : ℝ → ℝ → ℝ := pnw_cv4 cf4

def calc_tarif : ℝ → ℝ → ℝ := pnw_tarif calc_cv4

def calc_cvts : ℝ → ℝ → ℝ := pnw_cvts calc_cv4 calc_tarif

def calc_cvt : ℝ → ℝ → ℝ := dnr_cvt calc_tarif

end Eq_16

namespace Eq_17

/-- `Eq_17.calc_cvts` (mountain hemlock, OSU bulletin 35):
`cvts = 0.001106485 * dbh**1.8140497 * ht**1.2744923`. -/
def calc_cvts : ℝ → ℝ → ℝ := pillsbury_cvts 0.001106485 1.8140497 1.2744923

def calc_tarif : ℝ → ℝ → ℝ := dnr_tarif calc_cvts

def calc_cv4 : ℝ → ℝ → ℝ := dnr_cv4 calc_tarif

def calc_cvt : ℝ → ℝ → ℝ := dnr_cvt calc_tarif

end Eq_17

namespace Eq_18

/-- The clipped cubic form factor of `Eq_18` (Shasta red fir, PNW-266):
`cf4 = np.clip(0.231237 + 0.028176 * (ht / dbh), 0.3, 0.4)`. -/
def cf4 (dbh ht : ℝ) : ℝ := min (max (0.231237 + 0.028176 * (ht / dbh)) 0.3) 0.4

def calc_cv4 : ℝ → ℝ → ℝ := pnw_cv4 cf4

def calc_tarif : ℝ → ℝ → ℝ := pnw_tarif calc_cv4

def calc_cvts : ℝ → ℝ → ℝ := pnw_cvts calc_cv4 calc_tarif

def calc_cvt : ℝ → ℝ → ℝ := dnr_cvt calc_tarif

end Eq_18

namespace Eq_19

/-- The clipped cubic form factor of `Eq_19` (incense cedar, PNW-266):
`cf4 = np.clip(0.225786 + 4.44236 * (1 / ht), 0.27, None)`. -/
def cf4 (dbh ht : ℝ) : ℝ := max (0.225786 + 4.44236 * (1 / ht)) 0.27

def calc_cv4 : ℝ → ℝ → ℝ := pnw_cv4 cf4

def calc_tarif : ℝ → ℝ → ℝ := pnw_tarif calc_cv4

def calc_cvts : ℝ → ℝ → ℝ := pnw_cvts calc_cv4 calc_tarif

def calc_cvt : ℝ → ℝ → ℝ := dnr_cvt calc_tarif

end Eq_19

namespace Eq_20

/-- The clipped cubic form factor of `Eq_20` (sugar pine, PNW-266):
`cf4 = np.clip(0.358550 - 0.488134 * (1 / dbh), 0.3, 0.4)`. -/
def cf4 (dbh ht : ℝ) : ℝ := min (max (0.358550 - 0.488134 * (1 / dbh)) 0.3) 0.4

def calc_cv4 : ℝ → ℝ → ℝ := pnw_cv4 cf4

def calc_tarif : ℝ → ℝ → ℝ := pnw_tarif calc_cv4

def calc_cvts : ℝ → ℝ → ℝ := pnw_cvts calc_cv4 calc_tarif

def calc_cvt : ℝ → ℝ → ℝ := dnr_cvt calc_tarif

end Eq_20

namespace Eq_21

/-- `Eq_21.calc_cvts` (western juniper, Chittester 1984), with the
`.clip(0,)` floor and the size mask. -/
def calc_cvts (dbh ht : ℝ) : ℝ :=
  let cvts := max (0.005454154 * (0.30708901 + 0.00086157622 * ht
    - 0.0037255243 * dbh * ht / (ht - 4.5)) * dbh ^ 2 * ht * (ht / (ht - 4.5)) ^ 2) 0
  if dbh < 1 ∨ ht ≤ 0 then 0 else cvts

def calc_tarif : ℝ → ℝ → ℝ := dnr_tarif calc_cvts

/-- `Eq_21.calc_cv4`:
`cv4 = (cvts + 3.48) / (1.18052 + 0.32736 * np.exp(-0.1 * dbh)) - 2.948`;
`cv4[np.logical_or(dbh < 5, ht <= 0)] = 0`.  Note: no floor is applied
to the result. -/
def calc_cv4 (dbh ht : ℝ) : ℝ :=
  let cvts := calc_cvts dbh ht
  if dbh < 5 ∨ ht ≤ 0 then 0
  else (cvts + 3.48) / (1.18052 + 0.32736 * Real.exp (-0.1 * dbh)) - 2.948

def calc_cvt : ℝ → ℝ → ℝ := dnr_cvt calc_tarif

end Eq_21

namespace Eq_22

/-- `Eq_22.calc_cvts` (western larch, DNR report 24). -/
def calc_cvts : ℝ → ℝ → ℝ := dnr_cvts (-2.624325) 1.847123 1.044007

def calc_tarif : ℝ → ℝ → ℝ := dnr_tarif calc_cvts

def calc_cv4 : ℝ → ℝ → ℝ := dnr_cv4 calc_tarif

def calc_cvt : ℝ → ℝ → ℝ := dnr_cvt calc_tarif

end Eq_22

namespace Eq_23

/-- The clipped cubic form factor of `Eq_23` (white fir, PNW-266):
`cf4 = np.clip(0.299039 + 1.91272 * (1 / ht) + 0.0000367217 * (ht**2 / dbh), 0.3, 0.4)`. -/
def cf4 (dbh ht : ℝ) : ℝ :=
  min (max (0.299039 + 1.91272 * (1 / ht) + 0.0000367217 * (ht ^ 2 / dbh)) 0.3) 0.4

def calc_cv4 : ℝ → ℝ → ℝ := pnw_cv4 cf4

def calc_tarif : ℝ → ℝ → ℝ := pnw_tarif calc_cv4

def calc_cvts : ℝ → ℝ → ℝ := pnw_cvts calc_cv4 calc_tarif

def calc_cvt : ℝ → ℝ → ℝ := dnr_cvt calc_tarif

end Eq_23

namespace Eq_24

/-- `Eq_24.calc_cvts` (redwood, Krumland-Wensel 1975):
`cvts = np.exp(-6.2597 + 1.9967 * np.log(dbh) + 0.9642 * np.log(ht))`. -/
def calc_cvts (dbh ht : ℝ) : ℝ :=
  let cvts := Real.exp (-6.2597 + 1.9967 * Real.log dbh + 0.9642 * Real.log ht)
  if dbh < 1 ∨ ht ≤ 0 then 0 else cvts

def calc_tarif : ℝ → ℝ → ℝ := dnr_tarif calc_cvts

def calc_cv4 : ℝ → ℝ → ℝ := dnr_cv4 calc_tarif

def calc_cvt : ℝ → ℝ → ℝ := dnr_cvt calc_tarif

end Eq_24

namespace Eq_26

/-- `Eq_26.calc_cvts` (red alder, DNR report 24). -/
def calc_cvts : ℝ → ℝ → ℝ := dnr_cvts (-2.672775) 1.920617 1.074024

def calc_tarif : ℝ → ℝ → ℝ := dnr_tarif calc_cvts

def calc_cvt : ℝ → ℝ → ℝ := dnr_cvt calc_tarif

def calc_cv4 : ℝ → ℝ → ℝ := dnr_cv4 calc_tarif

def calc_cv8 : ℝ → ℝ → ℝ := dnr_cv8 calc_cv4

def calc_cv4x : ℝ → ℝ → ℝ := HardwoodVolumeEquation_NoX.calc_cv4x calc_cvt

def calc_tarifx : ℝ → ℝ → ℝ := HardwoodVolumeEquation_NoX.calc_tarifx calc_cv8

end Eq_26

namespace Eq_25

/-- `Eq_25.calc_cvt` (red alder, Curtis/Bruce PNW-56).  The method first
clamps the height: `ht = np.clip(ht, 18, None)`; the final mask then
tests the clamped height, so its `ht <= 0` arm can never fire. -/
def calc_cvt (dbh ht : ℝ) : ℝ :=
  let ht' := max ht 18
  let z := (ht' - 0.5 - dbh / 24.0) / (ht' - 4.5)
  let f := 0.3651 * z ^ (2.5 : ℝ) - 7.9032 * (z ^ (2.5 : ℝ)) * dbh / 1000.0
    + 3.295 * (z ^ (2.5 : ℝ)) * ht' / 1000.0
    - 1.9856 * (z ^ (2.5 : ℝ)) * ht' * dbh / 100000.0
    + -2.9668 * (z ^ (2.5 : ℝ)) * (ht' ^ 2) / 1000000.0
    + 1.5092 * (z ^ (2.5 : ℝ)) * (ht' ^ (0.5 : ℝ)) / 1000.0
    + 4.9395 * (z ^ (4.0 : ℝ)) * dbh / 1000.0
    + -2.05937 * (z ^ (4.0 : ℝ)) * ht' / 1000.0
    + 1.5042 * (z ^ (33.0 : ℝ)) * ht' * dbh / 1000000.0
    - 1.1433 * (z ^ (33.0 : ℝ)) * (ht' ^ (0.5 : ℝ)) / 10000.0
    + 1.809 * (z ^ (41.0 : ℝ)) * (ht' ^ 2) / 10000000.0
  if dbh < 1 ∨ ht' ≤ 0 then 0 else 0.00545415 * dbh ^ 2 * (ht' - 4.5) * f

/-- `Eq_25.calc_tarif`, with the same `ht = np.clip(ht, 18, None)`. -/
def calc_tarif (dbh ht : ℝ) : ℝ :=
  let ht' := max ht 18
  let ba := 0.005454154 * dbh ^ 2
  let cvt := calc_cvt dbh ht'
  if dbh ≤ 0 ∨ ht' ≤ 0 then 0
  else (cvt * 0.912733) / ((0.9679 - 0.1051 * (0.5523 : ℝ) ^ (dbh - 1.5))
    * ((1.033 * (1.0 + 1.382937 * Real.exp (-4.015292 * (dbh / 10.0))))
      * (ba + 0.087266) - 0.174533))

/-- `Eq_25.calc_cvts`, with the height clamp and the
`np.clip(cvts, 0, None)` floor. -/
def calc_cvts (dbh ht : ℝ) : ℝ :=
  let ht' := max ht 18
  let ba := 0.005454154 * dbh ^ 2
  let tarif := calc_tarif dbh ht'
  let cvts := tarif * ((1.0330 * (1.0 + 1.382937 * Real.exp (-4.015292 * (dbh / 10.0))))
    * (ba + 0.087266) - 0.174533) / 0.912733
  if dbh < 1 ∨ ht' ≤ 0 then 0 else max cvts 0

/-- `Eq_25.calc_cv4`, with the height clamp. -/
def calc_cv4 (dbh ht : ℝ) : ℝ :=
  let ht' := max ht 18
  let ba := 0.005454154 * dbh ^ 2
  let tarif := calc_tarif dbh ht'
  if dbh < 5 ∨ ht' ≤ 0 then 0 else tarif * (ba - 0.087266) / 0.912733

/-- `Eq_25.calc_cv8`, with the height clamp. -/
def calc_cv8 (dbh ht : ℝ) : ℝ :=
  let ht' := max ht 18
  let rc8 := 0.983 - (0.983 * (0.65 : ℝ) ^ (dbh - 8.6))
  let cv4 := calc_cv4 dbh ht'
  if dbh < 11 ∨ ht' ≤ 0 then 0 else rc8 * cv4

def calc_cv4x : ℝ → ℝ → ℝ := HardwoodVolumeEquation_NoX.calc_cv4x calc_cvt

def calc_tarifx : ℝ → ℝ → ℝ := HardwoodVolumeEquation_NoX.calc_tarifx calc_cv8

end Eq_25

namespace Eq_27

/-- `Eq_27.calc_cvts` (black cottonwood, DNR report 24). -/
def calc_cvts : ℝ → ℝ → ℝ := dnr_cvts (-2.945047) 1.803973 1.238853

def calc_tarif : ℝ → ℝ → ℝ := dnr_tarif calc_cvts

def calc_cvt : ℝ → ℝ → ℝ := dnr_cvt calc_tarif

def calc_cv4 : ℝ → ℝ → ℝ := dnr_cv4 calc_tarif

def calc_cv8 : ℝ → ℝ → ℝ := dnr_cv8 calc_cv4

end Eq_27

namespace Eq_28

/-- `Eq_28.calc_cvts` (aspen, DNR report 24). -/
def calc_cvts : ℝ → ℝ → ℝ := dnr_cvts (-2.635360) 1.946034 1.024793

def calc_tarif : ℝ → ℝ → ℝ := dnr_tarif calc_cvts

def calc_cvt : ℝ → ℝ → ℝ := dnr_cvt calc_tarif

def calc_cv4 : ℝ → ℝ → ℝ := dnr_cv4 calc_tarif

def calc_cv8 : ℝ → ℝ → ℝ := dnr_cv8 calc_cv4

end Eq_28

namespace Eq_29

/-- `Eq_29.calc_cvts` (birch, DNR report 24). -/
def calc_cvts : ℝ → ℝ → ℝ := dnr_cvts (-2.757813) 1.911681 1.105403

def calc_tarif : ℝ → ℝ → ℝ := dnr_tarif calc_cvts

def calc_cvt : ℝ → ℝ → ℝ := dnr_cvt calc_tarif

def calc_cv4 : ℝ → ℝ → ℝ := dnr_cv4 calc_tarif

def calc_cv8 : ℝ → ℝ → ℝ := dnr_cv8 calc_cv4

end Eq_29

namespace Eq_30

/-- `Eq_30.calc_cvts` (bigleaf maple, DNR report 24). -/
def calc_cvts : ℝ → ℝ → ℝ := dnr_cvts (-2.770324) 1.885813 1.119043

def calc_tarif : ℝ → ℝ → ℝ := dnr_tarif calc_cvts

def calc_cvt : ℝ → ℝ → ℝ := dnr_cvt calc_tarif

def calc_cv4 : ℝ → ℝ → ℝ := dnr_cv4 calc_tarif

def calc_cv8 : ℝ → ℝ → ℝ := dnr_cv8 calc_cv4

end Eq_30

namespace Eq_31

/-- `Eq_31.calc_cvts` (eucalyptus, MacLean 1983):
`cvts = 0.0016144 * dbh**2 * ht`. -/
def calc_cvts (dbh ht : ℝ) : ℝ :=
  if dbh < 1 ∨ ht ≤ 0 then 0 else 0.0016144 * dbh ^ 2 * ht

def calc_tarif : ℝ → ℝ → ℝ := dnr_tarif calc_cvts

def calc_cvt : ℝ → ℝ → ℝ := dnr_cvt calc_tarif

def calc_cv4 : ℝ → ℝ → ℝ := dnr_cv4 calc_tarif

def calc_cv8 : ℝ → ℝ → ℝ := dnr_cv8 calc_cv4

end Eq_31

namespace Eq_32

/-- `Eq_32.calc_cvts` (giant chinquapin, Pillsbury). -/
def calc_cvts : ℝ → ℝ → ℝ := pillsbury_cvts 0.0120372263 2.02232 0.68638

def calc_cv4 : ℝ → ℝ → ℝ := pillsbury_cv4 0.0055212937 2.07202 0.77467

def calc_cv8 : ℝ → ℝ → ℝ := pillsbury_cv8 0.0018985111 2.38285 0.77105

def calc_cvt : ℝ → ℝ → ℝ := pillsbury_cvt calc_cvts

def calc_tarif : ℝ → ℝ → ℝ := pillsbury_tarif calc_cv8

def calc_cv4x : ℝ → ℝ → ℝ := HardwoodVolumeEquation_WithX.calc_cv4x calc_cvt

def calc_tarifx : ℝ → ℝ → ℝ := HardwoodVolumeEquation_WithX.calc_tarifx calc_tarif

end Eq_32

namespace Eq_33

/-- `Eq_33.calc_cvts` (California laurel, Pillsbury). -/
def calc_cvts : ℝ → ℝ → ℝ := pillsbury_cvts 0.0057821322 1.94553 0.88389

def calc_cv4 : ℝ → ℝ → ℝ := pillsbury_cv4 0.0016380753 2.05910 1.05293

def calc_cv8 : ℝ → ℝ → ℝ := pillsbury_cv8 0.0018985111 2.38285 0.77105

def calc_cvt : ℝ → ℝ → ℝ := pillsbury_cvt calc_cvts

def calc_tarif : ℝ → ℝ → ℝ := pillsbury_tarif calc_cv8

end Eq_33

namespace Eq_34

/-- `Eq_34.calc_cvts` (tanoak, Pillsbury). -/
def calc_cvts : ℝ → ℝ → ℝ := pillsbury_cvts 0.0058870024 1.94165 0.86562

def calc_cv4 : ℝ → ℝ → ℝ := pillsbury_cv4 0.0005774970 2.19576 1.14078

def calc_cv8 : ℝ → ℝ → ℝ := pillsbury_cv8 0.0002526443 2.30949 1.21069

def calc_cvt : ℝ → ℝ → ℝ := pillsbury_cvt calc_cvts

def calc_tarif : ℝ → ℝ → ℝ := pillsbury_tarif calc_cv8

end Eq_34

namespace Eq_35

/-- `Eq_35.calc_cvts` (California white oak, Pillsbury). -/
def calc_cvts : ℝ → ℝ → ℝ := pillsbury_cvts 0.0042870077 2.33631 0.74872

def calc_cv4 : ℝ → ℝ → ℝ := pillsbury_cv4 0.0009684363 2.39565 0.98878

def calc_cv8 : ℝ → ℝ → ℝ := pillsbury_cv8 0.0001880044 1.87346 1.62443

def calc_cvt : ℝ → ℝ → ℝ := pillsbury_cvt calc_cvts

def calc_tarif : ℝ → ℝ → ℝ := pillsbury_tarif calc_cv8

end Eq_35

namespace Eq_36

/-- `Eq_36.calc_cvts` (Engelmann oak, Pillsbury). -/
def calc_cvts : ℝ → ℝ → ℝ := pillsbury_cvts 0.0191453191 2.40248 0.28060

def calc_cv4 : ℝ → ℝ → ℝ := pillsbury_cv4 0.0053866353 2.61268 0.31103

/-- `Eq_36.calc_cv8`: `cv8 = self.calc_cv4(dbh, ht)` with the
`dbh < 11` mask — the documented 8-inch-top = 4-inch-top equivalence. -/
def calc_cv8 (dbh ht : ℝ) : ℝ :=
  if dbh < 11 ∨ ht ≤ 0 then 0 else calc_cv4 dbh ht

def calc_cvt : ℝ → ℝ → ℝ := pillsbury_cvt calc_cvts

def calc_tarif : ℝ → ℝ → ℝ := pillsbury_tarif calc_cv8

end Eq_36

namespace Eq_37

/-- `Eq_37.calc_cvts` (bigleaf maple, Pillsbury). -/
def calc_cvts : ℝ → ℝ → ℝ := pillsbury_cvts 0.0101786350 2.22462 0.57561

def calc_cv4 : ℝ → ℝ → ℝ := pillsbury_cv4 0.0034214162 2.35347 0.69586

def calc_cv8 : ℝ → ℝ → ℝ :=
  pillsbury_cv8_fc 84 84 82 81 80 0.0004236332 2.10316 1.08584 0.40017

def calc_cvt : ℝ → ℝ → ℝ := pillsbury_cvt calc_cvts

def calc_tarif : ℝ → ℝ → ℝ := pillsbury_tarif calc_cv8

end Eq_37

namespace Eq_38

/-- `Eq_38.calc_cvts` (California black oak, Pillsbury). -/
def calc_cvts : ℝ → ℝ → ℝ := pillsbury_cvts 0.0070538108 1.97437 0.85034

def calc_cv4 : ℝ → ℝ → ℝ := pillsbury_cv4 0.0036795695 2.12635 0.83339

def calc_cv8 : ℝ → ℝ → ℝ :=
  pillsbury_cv8_fc 95 95 84 82 82 0.0012478663 2.68099 0.42441 0.28385

def calc_cvt : ℝ → ℝ → ℝ := pillsbury_cvt calc_cvts

def calc_tarif : ℝ → ℝ → ℝ := pillsbury_tarif calc_cv8

end Eq_38

namespace Eq_39

/-- `Eq_39.calc_cvts` (blue oak, Pillsbury). -/
def calc_cvts : ℝ → ℝ → ℝ := pillsbury_cvts 0.0125103008 2.33089 0.46100

def calc_cv4 : ℝ → ℝ → ℝ := pillsbury_cv4 0.0042324071 2.53987 0.50591

def calc_cv8 : ℝ → ℝ → ℝ :=
  pillsbury_cv8_fc 95 95 86 82 82 0.0036912408 1.79732 0.83884 0.15958

def calc_cvt : ℝ → ℝ → ℝ := pillsbury_cvt calc_cvts

def calc_tarif : ℝ → ℝ → ℝ := pillsbury_tarif calc_cv8

end Eq_39

namespace Eq_40

/-- `Eq_40.calc_cvts` (Pacific madrone, Pillsbury). -/
def calc_cvts : ℝ → ℝ → ℝ := pillsbury_cvts 0.0067322665 1.96628 0.83458

def calc_cv4 : ℝ → ℝ → ℝ := pillsbury_cv4 0.0025616425 1.99295 1.01532

def calc_cv8 : ℝ → ℝ → ℝ :=
  pillsbury_cv8_fc 95 86 82 79 79 0.0006181530 1.72635 1.26462 0.37868

def calc_cvt : ℝ → ℝ → ℝ := pillsbury_cvt calc_cvts

def calc_tarif : ℝ → ℝ → ℝ := pillsbury_tarif calc_cv8

end Eq_40

namespace Eq_41

/-- `Eq_41.calc_cvts` (Oregon white oak, Pillsbury). -/
def calc_cvts : ℝ → ℝ → ℝ := pillsbury_cvts 0.0072695058 2.14321 0.74220

def calc_cv4 : ℝ → ℝ → ℝ := pillsbury_cv4 0.0024277027 2.25575 0.87108

def calc_cv8 : ℝ → ℝ → ℝ :=
  pillsbury_cv8_fc 95 95 89 89 89 0.0008281647 2.10651 0.91215 0.32652

def calc_cvt : ℝ → ℝ → ℝ := pillsbury_cvt calc_cvts

def calc_tarif : ℝ → ℝ → ℝ := pillsbury_tarif calc_cv8

end Eq_41

namespace Eq_42

/-- `Eq_42.calc_cvts` (canyon live oak, Pillsbury). -/
def calc_cvts : ℝ → ℝ → ℝ := pillsbury_cvts 0.0097438611 2.20527 0.61190

def calc_cv4 : ℝ → ℝ → ℝ := pillsbury_cv4 0.0031670596 2.32519 0.74348

def calc_cv8 : ℝ → ℝ → ℝ :=
  pillsbury_cv8_fc 94 94 85 80 80 0.0006540144 2.24437 0.81358 0.43381

def calc_cvt : ℝ → ℝ → ℝ := pillsbury_cvt calc_cvts

def calc_tarif : ℝ → ℝ → ℝ := pillsbury_tarif calc_cv8

end Eq_42

namespace Eq_43

/-- `Eq_43.calc_cvts` (coast live oak, Pillsbury). -/
def calc_cvts : ℝ → ℝ → ℝ := pillsbury_cvts 0.0065261029 2.31958 0.62528

def calc_cv4 : ℝ → ℝ → ℝ := pillsbury_cv4 0.0024574847 2.53284 0.60764

def calc_cv8 : ℝ → ℝ → ℝ :=
  pillsbury_cv8_fc 95 95 86 82 82 0.0006540144 2.24437 0.81358 0.43381

def calc_cvt : ℝ → ℝ → ℝ := pillsbury_cvt calc_cvts

def calc_tarif : ℝ → ℝ → ℝ := pillsbury_tarif calc_cv8

end Eq_43

namespace Eq_44

/-- `Eq_44.calc_cvts` (interior live oak, Pillsbury). -/
def calc_cvts : ℝ → ℝ → ℝ := pillsbury_cvts 0.0136818837 2.02989 0.63257

def calc_cv4 : ℝ → ℝ → ℝ := pillsbury_cv4 0.0041192264 2.14915 0.77843

def calc_cv8 : ℝ → ℝ → ℝ :=
  pillsbury_cv8_fc 95 95 95 95 95 0.0006540144 2.24437 0.81358 0.43381

def calc_cvt : ℝ → ℝ → ℝ := pillsbury_cvt calc_cvts

def calc_tarif : ℝ → ℝ → ℝ := pillsbury_tarif calc_cv8

end Eq_44

namespace Eq_45

/-- `Eq_45.calc_cvts` (mountain mahogany, Chojnacky 1985): the
root-collar form with the multi-stem branch and the 0.1 floor.  The
`stems is None` default resolves to single-stem. -/
def calc_cvts (drc ht stems : ℝ) : ℝ :=
  let factor := if drc ≥ 3 ∧ ht > 0 then drc * drc * ht else 1
  let cvts := if stems > 1 then (-0.13363 + (0.128222 * (factor ^ ((1 : ℝ) / 3)))) ^ 3
    else (-0.13363 + (0.128222 * (factor ^ ((1 : ℝ) / 3))) + 0.080208) ^ 3
  if drc < 1 ∨ ht ≤ 0 then 0 else max cvts 0.1

end Eq_45

namespace Eq_46

/-- `Eq_46.calc_cvts` (mesquite, Chojnacky 1985): the two-regime form in
`x = drc**2 * ht / 1000`, the multi-stem overrides, the 0.1 floor and
the size mask, combined per element. -/
def calc_cvts (drc ht stems : ℝ) : ℝ :=
  let x := drc ^ 2 * ht / 1000
  let cvts := if stems > 1 ∧ x ≤ 2 then 0.020 + 1.8972 * x + 0.5756 * x ^ 2
    else if stems > 1 ∧ x > 2 then 9.586 + 2.3378 * x - 12.839 / x
    else if x ≤ 2 then -0.043 + 2.3378 * x + 0.8024 * x ^ 2
    else 9.586 + 2.3378 * x - 12.839 / x
  if drc < 1 ∨ ht ≤ 0 then 0 else max cvts 0.1

end Eq_46

/-! ## The `calc_vol` dispatch layer

`VolumeEquation.calc_vol` uppercases the metric string, validates it
against `AVAILABLE_METRICS`, and routes to the bound method; an
unvalidated string raises `ValueError`, and a method the bound class
never overrides raises `NotImplementedError` (every base-class method
body is a bare `raise NotImplementedError(...)`).  A variant is
modelled as a record of optional methods: `none` means that calling the
method (directly or through the methods it delegates to) raises
`NotImplementedError`; `calc_vol` returns `Except PyError ℝ`. -/

/-- The two exception kinds `calc_vol` can surface. -/
inductive PyError where
  | notImplementedError (msg : String)
  | valueError (msg : String)
deriving DecidableEq

/-- The message of every abstract-method `raise NotImplementedError(...)`
in `VolumeEquation`. -/
def notImplementedMsg : String := "This calculation is not implemented for this species."

/-- `AVAILABLE_METRICS` exactly as listed in `VolumeEquation.calc_vol`. -/
def AVAILABLE_METRICS : List String :=
  ["CVTS", "TARIF", "CVT", "CV4", "CV6", "CV8", "SV616", "SV816", "SV632", "XINT6", "XINT8"]

/-- `"Unrecognized metric provided. Must be one of: {}".format(", ".join(AVAILABLE_METRICS))`. -/
def unrecognizedMetricMsg : String :=
  "Unrecognized metric provided. Must be one of: " ++ String.intercalate ", " AVAILABLE_METRICS

/-- `metric.upper()` (the metric strings are ASCII). -/
def pyUpper (s : String) : String := ⟨s.data.map Char.toUpper⟩

/-- One bound Equation Variant as `calc_vol` sees it: each metric method
is either a total real-valued function or raises `NotImplementedError`
when invoked. -/
structure PyVolumeEquation where
  cvts : Option (ℝ → ℝ → ℝ)
  tarif : Option (ℝ → ℝ → ℝ)
  cvt : Option (ℝ → ℝ → ℝ)
  cv4 : Option (ℝ → ℝ → ℝ)
  cv6 : Option (ℝ → ℝ → ℝ)
  cv8 : Option (ℝ → ℝ → ℝ)
  sv616 : Option (ℝ → ℝ → ℝ)
  sv632 : Option (ℝ → ℝ → ℝ)
  sv816 : Option (ℝ → ℝ → ℝ)
  xint6 : Option (ℝ → ℝ → ℝ)
  xint8 : Option (ℝ → ℝ → ℝ)

/-- Invoke a possibly-unimplemented method. -/
def callMethod : Option (ℝ → ℝ → ℝ) → ℝ → ℝ → Except PyError ℝ
  | none, _, _ => Except.error (PyError.notImplementedError notImplementedMsg)
  | some f, dbh, ht => Except.ok (f dbh ht)

/-- The dispatch chain of `calc_vol` after the `metric.upper()` step:
membership validation, then the `if/elif` ladder in source order. -/
def dispatch (self : PyVolumeEquation) (dbh ht : ℝ) (metric : String) : Except PyError ℝ :=
  if metric ∈ AVAILABLE_METRICS then
    if metric = "CVTS" then callMethod self.cvts dbh ht
    else if metric = "TARIF" then callMethod self.tarif dbh ht
    else if metric = "CVT" then callMethod self.cvt dbh ht
    else if metric = "CV4" then callMethod self.cv4 dbh ht
    else if metric = "CV6" then callMethod self.cv6 dbh ht
    else if metric = "CV8" then callMethod self.cv8 dbh ht
    else if metric = "SV616" then callMethod self.sv616 dbh ht
    else if metric = "SV816" then callMethod self.sv816 dbh ht
    else if metric = "SV632" then callMethod self.sv632 dbh ht
    else if metric = "XINT6" then callMethod self.xint6 dbh ht
    else callMethod self.xint8 dbh ht
  else Except.error (PyError.valueError unrecognizedMetricMsg)

/-- `VolumeEquation.calc_vol(dbh, ht, metric)`. -/
def calc_vol (self : PyVolumeEquation) (dbh ht : ℝ) (metric : String) : Except PyError ℝ :=
  dispatch self dbh ht (pyUpper metric)

/-! ## Analytic toolbox -/

/-- A polynomial lower bound for the decaying exponential, from sixteen
applications of `x + 1 ≤ exp x`. -/
lemma exp_neg_ge_pow16 (y : ℝ) (h16 : y ≤ 16) :
    (1 - y / 16) ^ 16 ≤ Real.exp (-y) := by
  have h1 : (0:ℝ) ≤ 1 - y / 16 := by linarith
  have h2 : 1 - y / 16 ≤ Real.exp (-(y / 16)) := by
    linarith [Real.add_one_le_exp (-(y / 16))]
  calc (1 - y / 16) ^ 16 ≤ (Real.exp (-(y / 16))) ^ 16 := by
        exact pow_le_pow_left₀ h1 h2 16
    _ = Real.exp (-y) := by
        rw [← Real.exp_nat_mul]
        congr 1
        push_cast
        ring

/-- Tangent-line lower bound for the exponential factor of `pnw_term`
around a chosen centre `c`. -/
lemma exp_zone_tangent (c q d : ℝ)
    (hq : q ≤ Real.exp (-4.015292 * (c / 10.0)))
    (hfac : 0 ≤ 1 - 0.4015292 * (d - c)) :
    q * (1 - 0.4015292 * (d - c)) ≤ Real.exp (-4.015292 * (d / 10.0)) := by
  have h1 : 1 - 0.4015292 * (d - c) ≤ Real.exp (-4.015292 * ((d - c) / 10.0)) := by
    nlinarith [Real.add_one_le_exp (-4.015292 * ((d - c) / 10.0))]
  have h2 : q * (1 - 0.4015292 * (d - c))
      ≤ Real.exp (-4.015292 * (c / 10.0)) * Real.exp (-4.015292 * ((d - c) / 10.0)) :=
    mul_le_mul hq h1 hfac (Real.exp_pos _).le
  calc q * (1 - 0.4015292 * (d - c))
      ≤ Real.exp (-4.015292 * (c / 10.0)) * Real.exp (-4.015292 * ((d - c) / 10.0)) := h2
    _ = Real.exp (-4.015292 * (d / 10.0)) := by
        rw [← Real.exp_add]
        congr 1
        ring

/-- The recurring `TERM` factor is strictly positive for every diameter
of at least one inch (its infimum on that range is about `0.006`, near
`dbh ≈ 1.85`). -/
lemma pnw_term_pos (d : ℝ) (hd : 1 ≤ d) : 0 < pnw_term d := by
  have hE0 : 0 < Real.exp (-4.015292 * (d / 10.0)) := Real.exp_pos _
  have hX0 : (0:ℝ) < 0.005454154 * d ^ 2 + 0.087266 := by nlinarith
  unfold pnw_term
  rcases le_or_lt 3.9 d with h39 | h39
  · have hd2 : (15.21:ℝ) ≤ d ^ 2 := by nlinarith
    nlinarith [mul_pos hE0 hX0]
  · rcases le_or_lt 3 d with h3 | h3
    · have harg : -(1.56596388:ℝ) ≤ -4.015292 * (d / 10.0) := by nlinarith
      have hmono := Real.exp_le_exp.mpr harg
      have hq : (0.1923:ℝ) ≤ Real.exp (-(1.56596388:ℝ)) := by
        have h16 := exp_neg_ge_pow16 1.56596388 (by norm_num)
        nlinarith [h16]
      have hE : (0.1923:ℝ) ≤ Real.exp (-4.015292 * (d / 10.0)) := le_trans hq hmono
      have hd2 : (9:ℝ) ≤ d ^ 2 := by nlinarith
      nlinarith [mul_nonneg (sub_nonneg.mpr hE) (le_of_lt hX0)]
    · rcases le_or_lt 2 d with h2 | h2
      · have hq : (0.3546:ℝ) ≤ Real.exp (-4.015292 * ((2.5:ℝ) / 10.0)) := by
          have h16 := exp_neg_ge_pow16 1.003823 (by norm_num)
          have harg : Real.exp (-(1.003823:ℝ)) = Real.exp (-4.015292 * ((2.5:ℝ) / 10.0)) := by
            congr 1; norm_num
          nlinarith [h16]
        have hfac : (0:ℝ) ≤ 1 - 0.4015292 * (d - 2.5) := by nlinarith
        have htan := exp_zone_tangent 2.5 0.3546 d hq hfac
        have hd2 : (4:ℝ) ≤ d ^ 2 := by nlinarith
        nlinarith [htan, mul_nonneg (sub_nonneg.mpr htan) (le_of_lt hX0), sq_nonneg (d - 2)]
      · have hq : (0.5412:ℝ) ≤ Real.exp (-4.015292 * ((1.5:ℝ) / 10.0)) := by
          have h16 := exp_neg_ge_pow16 0.6022938 (by norm_num)
          have harg : Real.exp (-(0.6022938:ℝ)) = Real.exp (-4.015292 * ((1.5:ℝ) / 10.0)) := by
            congr 1; norm_num
          nlinarith [h16]
        have hfac : (0:ℝ) ≤ 1 - 0.4015292 * (d - 1.5) := by nlinarith
        have htan := exp_zone_tangent 1.5 0.5412 d hq hfac
        have hd2 : (1:ℝ) ≤ d ^ 2 := by nlinarith
        nlinarith [htan, mul_nonneg (sub_nonneg.mpr htan) (le_of_lt hX0), sq_nonneg (d - 1)]

/-- The DNR tarif denominator is strictly positive once the diameter
reaches five inches. -/
lemma dnr_denom_pos (d : ℝ) (hd : 5 ≤ d) : 0 < dnr_denom d := by
  have hE : 0 < Real.exp (-4.015292 * d) := Real.exp_pos _
  have hd2 : (25:ℝ) ≤ d ^ 2 := by nlinarith
  have hX0 : (0:ℝ) < 0.005454154 * d ^ 2 + 0.087266 := by nlinarith
  unfold dnr_denom
  nlinarith [mul_pos hE hX0]

/-- The bark factor `0.9679 - 0.1051 * 0.5523**(dbh - 1.5)` lies in
`(0, 1]` for diameters of at least 1.5 inches. -/
lemma bark_factor_bounds (d : ℝ) (hd : 1.5 ≤ d) :
    0 < 0.9679 - 0.1051 * (0.5523 : ℝ) ^ (d - 1.5)
      ∧ 0.9679 - 0.1051 * (0.5523 : ℝ) ^ (d - 1.5) ≤ 1 := by
  have hq1 : (0.5523 : ℝ) ^ (d - 1.5) ≤ 1 :=
    Real.rpow_le_one (by norm_num) (by norm_num) (by linarith)
  have hq0 : 0 < (0.5523 : ℝ) ^ (d - 1.5) := Real.rpow_pos_of_pos (by norm_num) _
  constructor <;> nlinarith

/-! ## Size-class masking lemmas

One lemma per definition shape: each metric formula ends in its
zeroing mask, so below the size class (or at non-positive height) the
result is exactly zero. -/

lemma cv4_masks (d h : ℝ) (hd : d < 5 ∨ h ≤ 0) :
    (∀ f : ℝ → ℝ → ℝ, dnr_cv4 f d h = 0)
    ∧ (∀ f : ℝ → ℝ → ℝ, pnw_cv4 f d h = 0)
    ∧ (∀ k a b : ℝ, pillsbury_cv4 k a b d h = 0)
    ∧ Eq_3.calc_cv4 d h = 0 ∧ Eq_5.calc_cv4 d h = 0 ∧ Eq_21.calc_cv4 d h = 0 :=
  ⟨fun f => by simp only [dnr_cv4]; rw [if_pos hd],
   fun f => by simp only [pnw_cv4]; rw [if_pos hd],
   fun k a b => by simp only [pillsbury_cv4]; rw [if_pos hd],
   by simp only [Eq_3.calc_cv4]; rw [if_pos hd],
   by simp only [Eq_5.calc_cv4]; rw [if_pos hd],
   by simp only [Eq_21.calc_cv4]; rw [if_pos hd]⟩

lemma cv8_masks (d h : ℝ) (hd : d < 11 ∨ h ≤ 0) :
    (∀ f : ℝ → ℝ → ℝ, dnr_cv8 f d h = 0)
    ∧ (∀ k a b : ℝ, pillsbury_cv8 k a b d h = 0)
    ∧ (∀ f1 f2 f3 f4 f5 k a b c : ℝ, pillsbury_cv8_fc f1 f2 f3 f4 f5 k a b c d h = 0)
    ∧ Eq_36.calc_cv8 d h = 0 :=
  ⟨fun f => by simp only [dnr_cv8]; rw [if_pos hd],
   fun k a b => by simp only [pillsbury_cv8]; rw [if_pos hd],
   fun f1 f2 f3 f4 f5 k a b c => by simp only [pillsbury_cv8_fc]; rw [if_pos hd],
   by simp only [Eq_36.calc_cv8]; rw [if_pos hd]⟩

lemma cvts_masks (d h s : ℝ) (hd : d < 1 ∨ h ≤ 0) :
    (∀ a b c : ℝ, dnr_cvts a b c d h = 0)
    ∧ (∀ f g : ℝ → ℝ → ℝ, pnw_cvts f g d h = 0)
    ∧ (∀ k a b : ℝ, pillsbury_cvts k a b d h = 0)
    ∧ Eq_1.calc_cvts d h = 0 ∧ Eq_2.calc_cvts d h = 0 ∧ Eq_4.calc_cvts d h = 0
    ∧ Eq_5.calc_cvts d h = 0 ∧ Eq_6.calc_cvts d h = 0 ∧ Eq_21.calc_cvts d h = 0
    ∧ Eq_24.calc_cvts d h = 0 ∧ Eq_31.calc_cvts d h = 0
    ∧ Eq_14.calc_cvts d h s = 0 ∧ Eq_14_1.calc_cvts d h s = 0 ∧ Eq_14_2.calc_cvts d h = 0
    ∧ Eq_45.calc_cvts d h s = 0 ∧ Eq_46.calc_cvts d h s = 0 :=
  ⟨fun a b c => by simp only [dnr_cvts]; rw [if_pos hd],
   fun f g => by simp only [pnw_cvts]; rw [if_pos hd],
   fun k a b => by simp only [pillsbury_cvts]; rw [if_pos hd],
   by simp only [Eq_1.calc_cvts]; rw [if_pos hd],
   by simp only [Eq_2.calc_cvts]; rw [if_pos hd],
   by simp only [Eq_4.calc_cvts]; rw [if_pos hd],
   by simp only [Eq_5.calc_cvts]; rw [if_pos hd],
   by simp only [Eq_6.calc_cvts]; rw [if_pos hd],
   by simp only [Eq_21.calc_cvts]; rw [if_pos hd],
   by simp only [Eq_24.calc_cvts]; rw [if_pos hd],
   by simp only [Eq_31.calc_cvts]; rw [if_pos hd],
   by simp only [Eq_14.calc_cvts]; rw [if_pos hd],
   by simp only [Eq_14_1.calc_cvts]; rw [if_pos hd],
   by simp only [Eq_14_2.calc_cvts]; rw [if_pos hd],
   by simp only [Eq_45.calc_cvts]; rw [if_pos hd],
   by simp only [Eq_46.calc_cvts]; rw [if_pos hd]⟩

lemma tarif_masks (d h : ℝ) (hd : d ≤ 0 ∨ h ≤ 0) :
    (∀ f : ℝ → ℝ → ℝ, dnr_tarif f d h = 0)
    ∧ (∀ f : ℝ → ℝ → ℝ, dnr10_tarif f d h = 0)
    ∧ (∀ f : ℝ → ℝ → ℝ, pnw_tarif f d h = 0)
    ∧ (∀ f : ℝ → ℝ → ℝ, pillsbury_tarif f d h = 0)
    ∧ Eq_5.calc_tarif d h = 0 :=
  ⟨fun f => by simp only [dnr_tarif]; rw [if_pos hd],
   fun f => by simp only [dnr10_tarif]; rw [if_pos hd],
   fun f => by simp only [pnw_tarif]; rw [if_pos hd],
   fun f => by simp only [pillsbury_tarif]; rw [if_pos hd],
   by simp only [Eq_5.calc_tarif]; rw [if_pos hd]⟩

lemma cvt_masks (d h : ℝ) (hd : d < 1 ∨ h ≤ 0) :
    (∀ f : ℝ → ℝ → ℝ, dnr_cvt f d h = 0)
    ∧ (∀ f : ℝ → ℝ → ℝ, pillsbury_cvt f d h = 0) :=
  ⟨fun f => by simp only [dnr_cvt]; rw [if_pos hd],
   fun f => by simp only [pillsbury_cvt]; rw [if_pos hd]⟩

lemma eq25_masks (d h : ℝ) :
    (d < 1 → Eq_25.calc_cvts d h = 0 ∧ Eq_25.calc_cvt d h = 0)
    ∧ (d ≤ 0 → Eq_25.calc_tarif d h = 0)
    ∧ (d < 5 → Eq_25.calc_cv4 d h = 0)
    ∧ (d < 11 → Eq_25.calc_cv8 d h = 0) :=
  ⟨fun hd => ⟨by simp only [Eq_25.calc_cvts]; rw [if_pos (Or.inl hd)],
     by simp only [Eq_25.calc_cvt]; rw [if_pos (Or.inl hd)]⟩,
   fun hd => by simp only [Eq_25.calc_tarif]; rw [if_pos (Or.inl hd)],
   fun hd => by simp only [Eq_25.calc_cv4]; rw [if_pos (Or.inl hd)],
   fun hd => by simp only [Eq_25.calc_cv8]; rw [if_pos (Or.inl hd)]⟩

lemma pipeline_masks (f g : ℝ → ℝ → ℝ) (d h : ℝ) :
    (d < 9 ∨ h ≤ 0 →
      SoftwoodVolumeEquation.calc_cv6 f d h = 0
      ∧ SoftwoodVolumeEquation.calc_sv616 f g d h = 0
      ∧ SoftwoodVolumeEquation.calc_sv632 f g d h = 0
      ∧ SoftwoodVolumeEquation.calc_xint6 f g d h = 0
      ∧ HardwoodVolumeEquation.calc_cv6 g d h = 0
      ∧ HardwoodVolumeEquation.calc_sv616 f g d h = 0
      ∧ HardwoodVolumeEquation.calc_xint6 f g d h = 0)
    ∧ (d < 11 ∨ h ≤ 0 →
      HardwoodVolumeEquation.calc_sv816 f g d h = 0
      ∧ HardwoodVolumeEquation.calc_xint8 f g d h = 0) :=
  ⟨fun hc =>
    ⟨by simp only [SoftwoodVolumeEquation.calc_cv6]; rw [if_pos hc],
     by simp only [SoftwoodVolumeEquation.calc_sv616]; rw [if_pos hc],
     by simp only [SoftwoodVolumeEquation.calc_sv632]; rw [if_pos hc],
     by simp only [SoftwoodVolumeEquation.calc_xint6]; rw [if_pos hc],
     by simp only [HardwoodVolumeEquation.calc_cv6]; rw [if_pos hc],
     by simp only [HardwoodVolumeEquation.calc_sv616]; rw [if_pos hc],
     by simp only [HardwoodVolumeEquation.calc_xint6]; rw [if_pos hc]⟩,
   fun hc =>
    ⟨by simp only [HardwoodVolumeEquation.calc_sv816]; rw [if_pos hc],
     by simp only [HardwoodVolumeEquation.calc_xint8]; rw [if_pos hc]⟩⟩

/-! ## Non-negativity lemmas -/

lemma dnr_cvts_nonneg (a b c : ℝ) : ∀ d h : ℝ, 0 ≤ dnr_cvts a b c d h := by
  intro d h
  simp only [dnr_cvts]
  split_ifs
  · exact le_rfl
  · exact Real.rpow_nonneg (by norm_num) _

lemma pillsbury_cvts_nonneg (k a b : ℝ) (hk : 0 ≤ k) :
    ∀ d h : ℝ, 0 ≤ pillsbury_cvts k a b d h := by
  intro d h
  simp only [pillsbury_cvts]
  split_ifs with hcond
  · exact le_rfl
  · push_neg at hcond
    exact mul_nonneg (mul_nonneg hk (Real.rpow_nonneg (by linarith [hcond.1]) _))
      (Real.rpow_nonneg (by linarith [hcond.2]) _)

lemma custom_cvts_nonneg (d h s : ℝ) :
    0 ≤ Eq_1.calc_cvts d h ∧ 0 ≤ Eq_2.calc_cvts d h ∧ 0 ≤ Eq_4.calc_cvts d h
    ∧ 0 ≤ Eq_6.calc_cvts d h ∧ 0 ≤ Eq_21.calc_cvts d h ∧ 0 ≤ Eq_24.calc_cvts d h
    ∧ 0 ≤ Eq_31.calc_cvts d h ∧ 0 ≤ Eq_25.calc_cvts d h
    ∧ 0 ≤ Eq_14.calc_cvts d h s ∧ 0 ≤ Eq_14_1.calc_cvts d h s ∧ 0 ≤ Eq_14_2.calc_cvts d h
    ∧ 0 ≤ Eq_45.calc_cvts d h s ∧ 0 ≤ Eq_46.calc_cvts d h s := by
  refine ⟨?_, ?_, ?_, ?_, ?_, ?_, ?_, ?_, ?_, ?_, ?_, ?_, ?_⟩
  · simp only [Eq_1.calc_cvts]
    split_ifs
    · exact le_rfl
    · exact Real.rpow_nonneg (by norm_num) _
  · simp only [Eq_2.calc_cvts]
    split_ifs
    · exact le_rfl
    · exact (Real.exp_pos _).le
  · simp only [Eq_4.calc_cvts]
    split_ifs
    · exact le_rfl
    · exact (Real.exp_pos _).le
  · simp only [Eq_6.calc_cvts]
    split_ifs
    · exact le_rfl
    · exact Real.rpow_nonneg (by norm_num) _
  · simp only [Eq_21.calc_cvts]
    split_ifs
    · exact le_rfl
    · exact le_max_right _ _
  · simp only [Eq_24.calc_cvts]
    split_ifs
    · exact le_rfl
    · exact (Real.exp_pos _).le
  · simp only [Eq_31.calc_cvts]
    split_ifs with hcond
    · exact le_rfl
    · push_neg at hcond
      nlinarith [sq_nonneg d, hcond.2]
  · simp only [Eq_25.calc_cvts]
    split_ifs
    · exact le_rfl
    · exact le_max_right _ _
  · simp only [Eq_14.calc_cvts]
    split_ifs
    all_goals first
      | exact le_rfl
      | exact le_trans (by norm_num) (le_max_right _ _)
  · simp only [Eq_14_1.calc_cvts]
    split_ifs
    all_goals first
      | exact le_rfl
      | exact le_trans (by norm_num) (le_max_right _ _)
  · simp only [Eq_14_2.calc_cvts]
    split_ifs
    all_goals first
      | exact le_rfl
      | exact le_trans (by norm_num) (le_max_right _ _)
  · simp only [Eq_45.calc_cvts]
    split_ifs
    all_goals first
      | exact le_rfl
      | exact le_trans (by norm_num) (le_max_right _ _)
  · simp only [Eq_46.calc_cvts]
    split_ifs
    all_goals first
      | exact le_rfl
      | exact le_trans (by norm_num) (le_max_right _ _)

lemma pnw_tarif_nonneg (f : ℝ → ℝ → ℝ) : ∀ d h : ℝ, 0 ≤ pnw_tarif f d h := by
  intro d h
  simp only [pnw_tarif]
  split_ifs
  all_goals first
    | exact le_rfl
    | exact le_trans (by norm_num) (le_max_right _ _)

lemma cf4_nonneg_all (d h : ℝ) :
    0 ≤ Eq_3.cf4 d h ∧ 0 ≤ Eq_16.cf4 d h ∧ 0 ≤ Eq_18.cf4 d h
    ∧ 0 ≤ Eq_19.cf4 d h ∧ 0 ≤ Eq_20.cf4 d h ∧ 0 ≤ Eq_23.cf4 d h :=
  ⟨le_min (le_trans (by norm_num) (le_max_right _ _)) (by norm_num),
   le_min (le_trans (by norm_num) (le_max_right _ _)) (by norm_num),
   le_min (le_trans (by norm_num) (le_max_right _ _)) (by norm_num),
   le_trans (by norm_num) (le_max_right _ _),
   le_min (le_trans (by norm_num) (le_max_right _ _)) (by norm_num),
   le_min (le_trans (by norm_num) (le_max_right _ _)) (by norm_num)⟩

lemma pnw_cv4_nonneg (cf4 : ℝ → ℝ → ℝ) (hcf4 : ∀ x y : ℝ, 0 ≤ cf4 x y) :
    ∀ d h : ℝ, 0 ≤ pnw_cv4 cf4 d h := by
  intro d h
  simp only [pnw_cv4]
  split_ifs with hcond
  · exact le_rfl
  · push_neg at hcond
    have := hcond.2
    exact mul_nonneg (mul_nonneg (hcf4 d h) (by positivity)) (by linarith)

lemma pnw_cvts_nonneg (calc_cv4 calc_tarif : ℝ → ℝ → ℝ)
    (hcv4 : ∀ x y : ℝ, 0 ≤ calc_cv4 x y) (htar : ∀ x y : ℝ, 0 ≤ calc_tarif x y) :
    ∀ d h : ℝ, 0 ≤ pnw_cvts calc_cv4 calc_tarif d h := by
  intro d h
  simp only [pnw_cvts]
  split_ifs with hcond h6
  · exact le_rfl
  · push_neg at hcond
    have hterm := (pnw_term_pos d hcond.1).le
    exact mul_nonneg (htar d h) hterm
  · push_neg at hcond h6
    have hterm := (pnw_term_pos d hcond.1).le
    have hba : (0:ℝ) ≤ 0.005454154 * d ^ 2 - 0.087266 := by nlinarith [h6]
    exact div_nonneg (mul_nonneg (hcv4 d h) hterm) hba

lemma eq3_eq5_nonneg (d h : ℝ) :
    0 ≤ Eq_3.calc_cv4 d h ∧ 0 ≤ Eq_5.calc_cv4 d h ∧ 0 ≤ Eq_5.calc_tarif d h
    ∧ 0 ≤ Eq_5.calc_cvts d h := by
  have hcv4 : 0 ≤ Eq_5.calc_cv4 d h := by
    simp only [Eq_5.calc_cv4]
    split_ifs with hcond hc5
    · exact le_rfl
    · push_neg at hcond
      have h1 := hcond.2
      have h2 : (0:ℝ) ≤ Eq_5.cf4 d :=
        le_min (le_trans (by norm_num) (le_max_right _ _)) (by norm_num)
      exact mul_nonneg (mul_nonneg h2 (by positivity)) (by linarith)
    · exact le_rfl
  have htar : 0 ≤ Eq_5.calc_tarif d h := by
    simp only [Eq_5.calc_tarif]
    split_ifs
    all_goals first
      | exact le_rfl
      | exact le_trans (by norm_num) (le_max_right _ _)
  refine ⟨?_, hcv4, htar, ?_⟩
  · simp only [Eq_3.calc_cv4]
    split_ifs with hcond hc5
    · exact le_rfl
    · exact le_rfl
    · push_neg at hcond
      have := hcond.2
      exact mul_nonneg (mul_nonneg ((cf4_nonneg_all d h).1) (by positivity)) (by linarith)
  · simp only [Eq_5.calc_cvts]
    split_ifs with hcond h6
    · exact le_rfl
    · push_neg at hcond
      have hterm := (pnw_term_pos d hcond.1).le
      have hba : (0:ℝ) ≤ 0.005454154 * d ^ 2 - 0.087266 := by nlinarith [h6]
      exact div_nonneg (mul_nonneg hcv4 hterm) hba
    · push_neg at hcond
      have hterm := (pnw_term_pos d hcond.1).le
      exact mul_nonneg htar hterm

lemma pipeline_nonneg (f g : ℝ → ℝ → ℝ) (d h : ℝ) :
    0 ≤ SoftwoodVolumeEquation.calc_sv616 f g d h
    ∧ 0 ≤ SoftwoodVolumeEquation.calc_sv632 f g d h
    ∧ 0 ≤ SoftwoodVolumeEquation.calc_xint6 f g d h
    ∧ 0 ≤ HardwoodVolumeEquation.calc_cv6 f d h
    ∧ 0 ≤ HardwoodVolumeEquation.calc_sv616 f g d h
    ∧ 0 ≤ HardwoodVolumeEquation.calc_sv816 f g d h
    ∧ 0 ≤ HardwoodVolumeEquation.calc_xint6 f g d h
    ∧ 0 ≤ HardwoodVolumeEquation.calc_xint8 f g d h := by
  refine ⟨?_, ?_, ?_, ?_, ?_, ?_, ?_, ?_⟩ <;>
    simp only [SoftwoodVolumeEquation.calc_sv616, SoftwoodVolumeEquation.calc_sv632,
      SoftwoodVolumeEquation.calc_xint6, HardwoodVolumeEquation.calc_cv6,
      HardwoodVolumeEquation.calc_sv616, HardwoodVolumeEquation.calc_sv816,
      HardwoodVolumeEquation.calc_xint6, HardwoodVolumeEquation.calc_xint8] <;>
    split_ifs <;> first | exact le_rfl | exact le_max_right _ _

/-! ## CVT versus CVTS -/

/-- For diameters of at least 11 inches, the bark factor times the
`TERM` block is at most the DNR tarif denominator.  This is the key
step of `CVT ≤ CVTS` for the Brackett-style hardwoods: it uses
`exp(-0.4015292 * d) ≤ 0.013` on that range. -/
lemma bark_term_le_dnr_denom (d : ℝ) (hd : 11 ≤ d) :
    (0.9679 - 0.1051 * (0.5523 : ℝ) ^ (d - 1.5)) * pnw_term d ≤ dnr_denom d := by
  obtain ⟨hb0, hb1⟩ := bark_factor_bounds d (by linarith)
  have hterm := pnw_term_pos d (by linarith)
  have hq0 : 0 < (0.5523 : ℝ) ^ (d - 1.5) := Real.rpow_pos_of_pos (by norm_num) _
  have step1 : (0.9679 - 0.1051 * (0.5523 : ℝ) ^ (d - 1.5)) * pnw_term d
      ≤ 0.9679 * pnw_term d := by nlinarith [mul_pos hq0 hterm]
  have hE2 : 0 ≤ Real.exp (-4.015292 * d) := (Real.exp_pos _).le
  have hE1 : Real.exp (-4.015292 * (d / 10.0)) ≤ 0.013 := by
    have hmono : Real.exp (-4.015292 * (d / 10.0)) ≤ Real.exp (-(4.4168212 : ℝ)) :=
      Real.exp_le_exp.mpr (by nlinarith)
    have hbig : (76.93 : ℝ) ≤ Real.exp (4.4168212 : ℝ) := by
      have h4 : Real.exp (4.4168212 : ℝ) = Real.exp 4 * Real.exp 0.4168212 := by
        rw [← Real.exp_add]; norm_num
      have he1 : (2.7182818283 : ℝ) ≤ Real.exp 1 := le_of_lt Real.exp_one_gt_d9
      have hse : Real.exp (4 : ℝ) = (Real.exp 1) ^ 4 := by
        rw [show (4 : ℝ) = 1 + 1 + 1 + 1 by norm_num, Real.exp_add, Real.exp_add,
          Real.exp_add]
        ring
      have he4 : (2.7182818283 : ℝ) ^ 4 ≤ (Real.exp 1) ^ 4 :=
        pow_le_pow_left₀ (by norm_num) he1 4
      have ht : (1.4168212 : ℝ) ≤ Real.exp (0.4168212 : ℝ) := by
        linarith [Real.add_one_le_exp (0.4168212 : ℝ)]
      rw [h4, hse]
      nlinarith [pow_pos (Real.exp_pos 1) 4]
    have hneg : Real.exp (-(4.4168212 : ℝ)) = (Real.exp (4.4168212 : ℝ))⁻¹ :=
      Real.exp_neg _
    have hpos := Real.exp_pos (4.4168212 : ℝ)
    have : (Real.exp (4.4168212 : ℝ))⁻¹ ≤ 0.013 := by
      rw [inv_le_iff_one_le_mul₀ hpos]
      nlinarith
    linarith [hmono, hneg ▸ this]
  have hX : (0.747218634 : ℝ) ≤ 0.005454154 * d ^ 2 + 0.087266 := by nlinarith
  have hX0 : (0 : ℝ) ≤ 0.005454154 * d ^ 2 + 0.087266 := by linarith
  have step2 : 0.9679 * pnw_term d ≤ dnr_denom d := by
    unfold pnw_term dnr_denom
    nlinarith [mul_nonneg (sub_nonneg.mpr hE1) hX0, mul_nonneg hE2 hX0]
  linarith

/-- `CVT ≤ CVTS` for every Brackett-style (DNR) variant: the shared
derivation `cvt = tarif * bark * TERM / 0.912733` with
`tarif = cvts * 0.912733 / denom` stays below `cvts` whenever
`dbh ≥ 11` and `ht > 0`, given a non-negative `calc_cvts`. -/
lemma dnr_cvt_le_cvts (cvts_fn : ℝ → ℝ → ℝ) (hc : ∀ x y : ℝ, 0 ≤ cvts_fn x y)
    (d h : ℝ) (hd : 11 ≤ d) (hh : 0 < h) :
    dnr_cvt (dnr_tarif cvts_fn) d h ≤ cvts_fn d h := by
  have hden := dnr_denom_pos d (by linarith)
  have hkey := bark_term_le_dnr_denom d hd
  have hcv := hc d h
  simp only [dnr_cvt, dnr_tarif]
  rw [if_neg (by push_neg; exact ⟨by linarith, by linarith⟩),
    if_neg (by push_neg; exact ⟨by linarith, by linarith⟩)]
  have heq : cvts_fn d h * 0.912733 / dnr_denom d
        * (0.9679 - 0.1051 * (0.5523 : ℝ) ^ (d - 1.5)) * pnw_term d / 0.912733
      = cvts_fn d h * ((0.9679 - 0.1051 * (0.5523 : ℝ) ^ (d - 1.5)) * pnw_term d)
        / dnr_denom d := by
    field_simp
    ring
  rw [heq, div_le_iff hden]
  nlinarith [mul_le_mul_of_nonneg_left hkey hcv]

/-- `CVT ≤ CVTS` for every Pillsbury-style variant: `cvt = cvts * rts`
with `rts < 1`, for a non-negative `calc_cvts`. -/
lemma pillsbury_cvt_le_cvts (cvts_fn : ℝ → ℝ → ℝ) (hc : ∀ x y : ℝ, 0 ≤ cvts_fn x y)
    (d h : ℝ) :
    pillsbury_cvt cvts_fn d h ≤ cvts_fn d h := by
  simp only [pillsbury_cvt]
  split_ifs
  · exact hc d h
  · have hq : 0 < (0.5523 : ℝ) ^ (d - 1.5) := Real.rpow_pos_of_pos (by norm_num) _
    nlinarith [hc d h, mul_nonneg (hc d h) hq.le]

/-! ## The `Eq_25` height clamp -/

lemma eq25_clamps (d h : ℝ) (hh : h ≤ 18) :
    Eq_25.calc_cvt d h = Eq_25.calc_cvt d 18
    ∧ Eq_25.calc_tarif d h = Eq_25.calc_tarif d 18
    ∧ Eq_25.calc_cvts d h = Eq_25.calc_cvts d 18
    ∧ Eq_25.calc_cv4 d h = Eq_25.calc_cv4 d 18
    ∧ Eq_25.calc_cv8 d h = Eq_25.calc_cv8 d 18 :=
  ⟨by simp only [Eq_25.calc_cvt, max_eq_right hh, max_self],
   by simp only [Eq_25.calc_tarif, max_eq_right hh, max_self],
   by simp only [Eq_25.calc_cvts, max_eq_right hh, max_self],
   by simp only [Eq_25.calc_cv4, max_eq_right hh, max_self],
   by simp only [Eq_25.calc_cv8, max_eq_right hh, max_self]⟩

/-- Re-clamping an already clamped height is the identity for
`Eq_25.calc_cvt`. -/
lemma eq25_cvt_idem (d h : ℝ) : Eq_25.calc_cvt d (max h 18) = Eq_25.calc_cvt d h := by
  simp only [Eq_25.calc_cvt, max_assoc, max_self]

/-- `CVT ≤ CVTS` for `Eq_25`: its `calc_cvts` is `calc_cvt / bark`
floored at zero, and the bark factor lies in `(0, 1]`. -/
lemma eq25_cvt_le_cvts (d h : ℝ) (hd : 11 ≤ d) (hh : 0 < h) :
    Eq_25.calc_cvt d h ≤ Eq_25.calc_cvts d h := by
  have hht : (18:ℝ) ≤ max h 18 := le_max_right _ _
  obtain ⟨hb0, hb1⟩ := bark_factor_bounds d (by linarith)
  have hterm := pnw_term_pos d (by linarith)
  unfold pnw_term at hterm
  simp only [Eq_25.calc_cvts, Eq_25.calc_tarif, max_assoc, max_self]
  rw [if_neg (by push_neg; exact ⟨by linarith, by linarith⟩),
    if_neg (by push_neg; exact ⟨by linarith, by linarith⟩), eq25_cvt_idem,
    show (1.0330:ℝ) = 1.033 from by norm_num]
  rcases le_or_lt 0 (Eq_25.calc_cvt d h) with hcvt | hcvt
  · have heq : Eq_25.calc_cvt d h * 0.912733
          / ((0.9679 - 0.1051 * (0.5523:ℝ) ^ (d - 1.5))
            * (1.033 * (1.0 + 1.382937 * Real.exp (-4.015292 * (d / 10.0)))
              * (0.005454154 * d ^ 2 + 0.087266) - 0.174533))
          * (1.033 * (1.0 + 1.382937 * Real.exp (-4.015292 * (d / 10.0)))
            * (0.005454154 * d ^ 2 + 0.087266) - 0.174533) / 0.912733
        = Eq_25.calc_cvt d h / (0.9679 - 0.1051 * (0.5523:ℝ) ^ (d - 1.5)) := by
      rw [div_mul_eq_mul_div, div_div]
      rw [div_eq_div_iff (by positivity) (by positivity)]
      ring
    rw [heq]
    refine le_max_of_le_left ?_
    rw [le_div_iff hb0]
    nlinarith
  · exact le_trans hcvt.le (le_max_right _ _)

/-- `Eq_14` as seen by `calc_vol`: only `calc_cvts` is overridden (with
`stems` defaulting to 1); every other metric raises
`NotImplementedError` when requested, either directly from the
`VolumeEquation` stub or from the `calc_cv4`/`calc_tarif` stubs that the
inherited softwood boardfoot pipeline invokes. -/
def eq14_py : PyVolumeEquation where
  cvts := some (fun drc ht => Eq_14.calc_cvts drc ht 1)
  tarif := none
  cvt := none
  cv4 := none
  cv6 := none
  cv8 := none
  sv616 := none
  sv632 := none
  sv816 := none
  xint6 := none
  xint8 := none

/-- `Eq_32` inherits its `calc_cv6` from `HardwoodVolumeEquation`,
instantiated with its pass-through `calc_cv4x`. -/
def Eq_32.calc_cv6 : ℝ → ℝ → ℝ := HardwoodVolumeEquation.calc_cv6 Eq_32.calc_cv4x

/-! ## Method families as lists

To state the spec-wide claims ("every variant's CVTS...", "every CV4...")
once, the corresponding methods of all equation variants are collected in
lists; the multiple-stem variants take the stem count `s` as a parameter.
`all_cvts_unclamped` omits `Eq_25`, whose height clamp makes its `ht <= 0`
mask arm unreachable. -/

def all_cv4 : List (ℝ → ℝ → ℝ) :=
  [Eq_1.calc_cv4,
   Eq_2.calc_cv4,
   Eq_3.calc_cv4,
   Eq_4.calc_cv4,
   Eq_5.calc_cv4,
   Eq_6.calc_cv4,
   Eq_7.calc_cv4,
   Eq_8.calc_cv4,
   Eq_9.calc_cv4,
   Eq_10.calc_cv4,
   Eq_11.calc_cv4,
   Eq_12.calc_cv4,
   Eq_13.calc_cv4,
   Eq_15.calc_cv4,
   Eq_16.calc_cv4,
   Eq_17.calc_cv4,
   Eq_18.calc_cv4,
   Eq_19.calc_cv4,
   Eq_20.calc_cv4,
   Eq_21.calc_cv4,
   Eq_22.calc_cv4,
   Eq_23.calc_cv4,
   Eq_24.calc_cv4,
   Eq_25.calc_cv4,
   Eq_26.calc_cv4,
   Eq_27.calc_cv4,
   Eq_28.calc_cv4,
   Eq_29.calc_cv4,
   Eq_30.calc_cv4,
   Eq_31.calc_cv4,
   Eq_32.calc_cv4,
   Eq_33.calc_cv4,
   Eq_34.calc_cv4,
   Eq_35.calc_cv4,
   Eq_36.calc_cv4,
   Eq_37.calc_cv4,
   Eq_38.calc_cv4,
   Eq_39.calc_cv4,
   Eq_40.calc_cv4,
   Eq_41.calc_cv4,
   Eq_42.calc_cv4,
   Eq_43.calc_cv4,
   Eq_44.calc_cv4]
def all_cv8 : List (ℝ → ℝ → ℝ) :=
  [Eq_25.calc_cv8,
   Eq_26.calc_cv8,
   Eq_27.calc_cv8,
   Eq_28.calc_cv8,
   Eq_29.calc_cv8,
   Eq_30.calc_cv8,
   Eq_31.calc_cv8,
   Eq_32.calc_cv8,
   Eq_33.calc_cv8,
   Eq_34.calc_cv8,
   Eq_35.calc_cv8,
   Eq_36.calc_cv8,
   Eq_37.calc_cv8,
   Eq_38.calc_cv8,
   Eq_39.calc_cv8,
   Eq_40.calc_cv8,
   Eq_41.calc_cv8,
   Eq_42.calc_cv8,
   Eq_43.calc_cv8,
   Eq_44.calc_cv8]
def all_tarif : List (ℝ → ℝ → ℝ) :=
  [Eq_1.calc_tarif,
   Eq_2.calc_tarif,
   Eq_3.calc_tarif,
   Eq_4.calc_tarif,
   Eq_5.calc_tarif,
   Eq_6.calc_tarif,
   Eq_7.calc_tarif,
   Eq_8.calc_tarif,
   Eq_9.calc_tarif,
   Eq_10.calc_tarif,
   Eq_11.calc_tarif,
   Eq_12.calc_tarif,
   Eq_13.calc_tarif,
   Eq_15.calc_tarif,
   Eq_16.calc_tarif,
   Eq_17.calc_tarif,
   Eq_18.calc_tarif,
   Eq_19.calc_tarif,
   Eq_20.calc_tarif,
   Eq_21.calc_tarif,
   Eq_22.calc_tarif,
   Eq_23.calc_tarif,
   Eq_24.calc_tarif,
   Eq_25.calc_tarif,
   Eq_26.calc_tarif,
   Eq_27.calc_tarif,
   Eq_28.calc_tarif,
   Eq_29.calc_tarif,
   Eq_30.calc_tarif,
   Eq_31.calc_tarif,
   Eq_32.calc_tarif,
   Eq_33.calc_tarif,
   Eq_34.calc_tarif,
   Eq_35.calc_tarif,
   Eq_36.calc_tarif,
   Eq_37.calc_tarif,
   Eq_38.calc_tarif,
   Eq_39.calc_tarif,
   Eq_40.calc_tarif,
   Eq_41.calc_tarif,
   Eq_42.calc_tarif,
   Eq_43.calc_tarif,
   Eq_44.calc_tarif]
def all_cvt : List (ℝ → ℝ → ℝ) :=
  [Eq_1.calc_cvt,
   Eq_2.calc_cvt,
   Eq_3.calc_cvt,
   Eq_4.calc_cvt,
   Eq_5.calc_cvt,
   Eq_6.calc_cvt,
   Eq_7.calc_cvt,
   Eq_8.calc_cvt,
   Eq_9.calc_cvt,
   Eq_10.calc_cvt,
   Eq_11.calc_cvt,
   Eq_12.calc_cvt,
   Eq_13.calc_cvt,
   Eq_15.calc_cvt,
   Eq_16.calc_cvt,
   Eq_17.calc_cvt,
   Eq_18.calc_cvt,
   Eq_19.calc_cvt,
   Eq_20.calc_cvt,
   Eq_21.calc_cvt,
   Eq_22.calc_cvt,
   Eq_23.calc_cvt,
   Eq_24.calc_cvt,
   Eq_25.calc_cvt,
   Eq_26.calc_cvt,
   Eq_27.calc_cvt,
   Eq_28.calc_cvt,
   Eq_29.calc_cvt,
   Eq_30.calc_cvt,
   Eq_31.calc_cvt,
   Eq_32.calc_cvt,
   Eq_33.calc_cvt,
   Eq_34.calc_cvt,
   Eq_35.calc_cvt,
   Eq_36.calc_cvt,
   Eq_37.calc_cvt,
   Eq_38.calc_cvt,
   Eq_39.calc_cvt,
   Eq_40.calc_cvt,
   Eq_41.calc_cvt,
   Eq_42.calc_cvt,
   Eq_43.calc_cvt,
   Eq_44.calc_cvt]
def all_cvts (s : ℝ) : List (ℝ → ℝ → ℝ) :=
  [Eq_1.calc_cvts,
   Eq_2.calc_cvts,
   Eq_3.calc_cvts,
   Eq_4.calc_cvts,
   Eq_5.calc_cvts,
   Eq_6.calc_cvts,
   Eq_7.calc_cvts,
   Eq_8.calc_cvts,
   Eq_9.calc_cvts,
   Eq_10.calc_cvts,
   Eq_11.calc_cvts,
   Eq_12.calc_cvts,
   Eq_13.calc_cvts,
   fun d h => Eq_14.calc_cvts d h s,
   fun d h => Eq_14_1.calc_cvts d h s,
   Eq_14_2.calc_cvts,
   Eq_15.calc_cvts,
   Eq_16.calc_cvts,
   Eq_17.calc_cvts,
   Eq_18.calc_cvts,
   Eq_19.calc_cvts,
   Eq_20.calc_cvts,
   Eq_21.calc_cvts,
   Eq_22.calc_cvts,
   Eq_23.calc_cvts,
   Eq_24.calc_cvts,
   Eq_25.calc_cvts,
   Eq_26.calc_cvts,
   Eq_27.calc_cvts,
   Eq_28.calc_cvts,
   Eq_29.calc_cvts,
   Eq_30.calc_cvts,
   Eq_31.calc_cvts,
   Eq_32.calc_cvts,
   Eq_33.calc_cvts,
   Eq_34.calc_cvts,
   Eq_35.calc_cvts,
   Eq_36.calc_cvts,
   Eq_37.calc_cvts,
   Eq_38.calc_cvts,
   Eq_39.calc_cvts,
   Eq_40.calc_cvts,
   Eq_41.calc_cvts,
   Eq_42.calc_cvts,
   Eq_43.calc_cvts,
   Eq_44.calc_cvts,
   fun d h => Eq_45.calc_cvts d h s,
   fun d h => Eq_46.calc_cvts d h s]
def all_cvts_unclamped (s : ℝ) : List (ℝ → ℝ → ℝ) :=
  [Eq_1.calc_cvts,
   Eq_2.calc_cvts,
   Eq_3.calc_cvts,
   Eq_4.calc_cvts,
   Eq_5.calc_cvts,
   Eq_6.calc_cvts,
   Eq_7.calc_cvts,
   Eq_8.calc_cvts,
   Eq_9.calc_cvts,
   Eq_10.calc_cvts,
   Eq_11.calc_cvts,
   Eq_12.calc_cvts,
   Eq_13.calc_cvts,
   fun d h => Eq_14.calc_cvts d h s,
   fun d h => Eq_14_1.calc_cvts d h s,
   Eq_14_2.calc_cvts,
   Eq_15.calc_cvts,
   Eq_16.calc_cvts,
   Eq_17.calc_cvts,
   Eq_18.calc_cvts,
   Eq_19.calc_cvts,
   Eq_20.calc_cvts,
   Eq_21.calc_cvts,
   Eq_22.calc_cvts,
   Eq_23.calc_cvts,
   Eq_24.calc_cvts,
   Eq_26.calc_cvts,
   Eq_27.calc_cvts,
   Eq_28.calc_cvts,
   Eq_29.calc_cvts,
   Eq_30.calc_cvts,
   Eq_31.calc_cvts,
   Eq_32.calc_cvts,
   Eq_33.calc_cvts,
   Eq_34.calc_cvts,
   Eq_35.calc_cvts,
   Eq_36.calc_cvts,
   Eq_37.calc_cvts,
   Eq_38.calc_cvts,
   Eq_39.calc_cvts,
   Eq_40.calc_cvts,
   Eq_41.calc_cvts,
   Eq_42.calc_cvts,
   Eq_43.calc_cvts,
   Eq_44.calc_cvts,
   fun d h => Eq_45.calc_cvts d h s,
   fun d h => Eq_46.calc_cvts d h s]

/-! ## Concrete positivity of `Eq_25` at `(15, 18)`

Used to show that the claimed `ht <= 0` zero boundary fails for `Eq_25`:
its height clamp fires first, so `calc_cvts 15 (-5) = calc_cvts 15 18 > 0`.
At `dbh = 15`, `ht = 18` the taper variable is `z = 16.875 / 13.5 = 5/4`
exactly; the `z ^ 2.5` and `ht ^ 0.5` powers are handled through
`Real.sqrt` with two-sided rational bounds. -/

lemma eq25_cvts_pos_15_18 : 0 < Eq_25.calc_cvts 15 18 := by
  have hcvt : 0 < Eq_25.calc_cvt 15 18 := by
    simp only [Eq_25.calc_cvt, max_self]
    rw [if_neg (by norm_num)]
    rw [show ((18:ℝ) - 0.5 - 15 / 24.0) / ((18:ℝ) - 4.5) = 5 / 4 from by norm_num]
    rw [show ((2.5):ℝ) = ((2:ℕ):ℝ) + (1 / 2 : ℝ) from by norm_num]
    rw [Real.rpow_add (by norm_num : (0:ℝ) < 5 / 4), Real.rpow_natCast,
      ← Real.sqrt_eq_rpow]
    rw [show ((4.0):ℝ) = ((4:ℕ):ℝ) from by norm_num, Real.rpow_natCast]
    rw [show ((33.0):ℝ) = ((33:ℕ):ℝ) from by norm_num, Real.rpow_natCast]
    rw [show ((41.0):ℝ) = ((41:ℕ):ℝ) from by norm_num, Real.rpow_natCast]
    rw [show ((0.5):ℝ) = (1 / 2 : ℝ) from by norm_num, ← Real.sqrt_eq_rpow]
    have hq_l : (1.118:ℝ) ≤ Real.sqrt (5 / 4) := by
      rw [show (1.118:ℝ) = Real.sqrt (1.118 ^ 2) from (Real.sqrt_sq (by norm_num)).symm]
      exact Real.sqrt_le_sqrt (by norm_num)
    have hq_u : Real.sqrt (5 / 4) ≤ 1.1181 := by
      rw [show (1.1181:ℝ) = Real.sqrt (1.1181 ^ 2) from (Real.sqrt_sq (by norm_num)).symm]
      exact Real.sqrt_le_sqrt (by norm_num)
    have hs_l : (4.2426:ℝ) ≤ Real.sqrt 18 := by
      rw [show (4.2426:ℝ) = Real.sqrt (4.2426 ^ 2) from (Real.sqrt_sq (by norm_num)).symm]
      exact Real.sqrt_le_sqrt (by norm_num)
    have hs_u : Real.sqrt 18 ≤ 4.2427 := by
      rw [show (4.2427:ℝ) = Real.sqrt (4.2427 ^ 2) from (Real.sqrt_sq (by norm_num)).symm]
      exact Real.sqrt_le_sqrt (by norm_num)
    nlinarith [hq_l, hq_u, hs_l, hs_u,
      mul_nonneg (sub_nonneg.mpr hq_l) (sub_nonneg.mpr hs_l)]
  have htar : 0 < Eq_25.calc_tarif 15 18 := by
    simp only [Eq_25.calc_tarif, max_self]
    rw [if_neg (by norm_num)]
    have hbark := (bark_factor_bounds 15 (by norm_num)).1
    have hexp := Real.exp_pos (-4.015292 * ((15:ℝ) / 10.0))
    have hT : (0:ℝ) < 1.033 * (1.0 + 1.382937 * Real.exp (-4.015292 * ((15:ℝ) / 10.0)))
        * (0.005454154 * (15:ℝ) ^ 2 + 0.087266) - 0.174533 := by nlinarith
    exact div_pos (mul_pos hcvt (by norm_num)) (mul_pos hbark hT)
  simp only [Eq_25.calc_cvts, max_self]
  rw [if_neg (by norm_num)]
  refine lt_max_of_lt_left ?_
  have hexp := Real.exp_pos (-4.015292 * ((15:ℝ) / 10.0))
  have hT : (0:ℝ) < 1.0330 * (1.0 + 1.382937 * Real.exp (-4.015292 * ((15:ℝ) / 10.0)))
      * (0.005454154 * (15:ℝ) ^ 2 + 0.087266) - 0.174533 := by nlinarith
  exact div_pos (mul_pos htar hT) (by norm_num)


/-! ## Claims -/

/-- **C9.** The `Eq_25` (red alder) variant clamps height up to a
minimum of 18 feet inside every one of its cubic-volume and tarif
computations: for every diameter and every pair of positive heights at
most 18 feet, `calc_cvt`, `calc_cvts`, `calc_cv4`, `calc_cv8` and
`calc_tarif` return the same value — heights below 18 feet behave
exactly like a height of 18 feet. -/
theorem C9_eq25_height_clamp (d h1 h2 : ℝ) (h1pos : 0 < h1) (h1le : h1 ≤ 18)
    (h2pos : 0 < h2) (h2le : h2 ≤ 18) :
    Eq_25.calc_cvt d h1 = Eq_25.calc_cvt d h2
      ∧ Eq_25.calc_cvts d h1 = Eq_25.calc_cvts d h2
      ∧ Eq_25.calc_cv4 d h1 = Eq_25.calc_cv4 d h2
      ∧ Eq_25.calc_cv8 d h1 = Eq_25.calc_cv8 d h2
      ∧ Eq_25.calc_tarif d h1 = Eq_25.calc_tarif d h2 :=
  ⟨(eq25_clamps d h1 h1le).1.trans (eq25_clamps d h2 h2le).1.symm,
   (eq25_clamps d h1 h1le).2.2.1.trans (eq25_clamps d h2 h2le).2.2.1.symm,
   (eq25_clamps d h1 h1le).2.2.2.1.trans (eq25_clamps d h2 h2le).2.2.2.1.symm,
   (eq25_clamps d h1 h1le).2.2.2.2.trans (eq25_clamps d h2 h2le).2.2.2.2.symm,
   (eq25_clamps d h1 h1le).2.1.trans (eq25_clamps d h2 h2le).2.1.symm⟩

/-- Witness for C9 at diameter 15 and heights 5 and 12 feet. -/
theorem C9_eq25_height_clamp_witness :
    ((0:ℝ) < 5 ∧ (5:ℝ) ≤ 18 ∧ (0:ℝ) < 12 ∧ (12:ℝ) ≤ 18)
      ∧ (Eq_25.calc_cvt 15 5 = Eq_25.calc_cvt 15 12
        ∧ Eq_25.calc_cvts 15 5 = Eq_25.calc_cvts 15 12
        ∧ Eq_25.calc_cv4 15 5 = Eq_25.calc_cv4 15 12
        ∧ Eq_25.calc_cv8 15 5 = Eq_25.calc_cv8 15 12
        ∧ Eq_25.calc_tarif 15 5 = Eq_25.calc_tarif 15 12) :=
  ⟨⟨by norm_num, by norm_num, by norm_num, by norm_num⟩,
   C9_eq25_height_clamp 15 5 12 (by norm_num) (by norm_num) (by norm_num) (by norm_num)⟩

/-- **C10.** For the root-collar-diameter variants `Eq_14`, `Eq_14_1`,
`Eq_14_2`, `Eq_45` and `Eq_46`, `calc_cvts` never returns a value
strictly between 0 and 0.1: for every `drc ≥ 1`, height `> 0` and any
stem count, the result is floored at 0.1 cubic feet. -/
theorem C10_drc_cvts_floor (drc h stems : ℝ) (hd : 1 ≤ drc) (hh : 0 < h) :
    0.1 ≤ Eq_14.calc_cvts drc h stems
      ∧ 0.1 ≤ Eq_14_1.calc_cvts drc h stems
      ∧ 0.1 ≤ Eq_14_2.calc_cvts drc h
      ∧ 0.1 ≤ Eq_45.calc_cvts drc h stems
      ∧ 0.1 ≤ Eq_46.calc_cvts drc h stems := by
  have hmask : ¬(drc < 1 ∨ h ≤ 0) := by push_neg; exact ⟨by linarith, hh⟩
  refine ⟨?_, ?_, ?_, ?_, ?_⟩
  · simp only [Eq_14.calc_cvts]; rw [if_neg hmask]; exact le_max_right _ _
  · simp only [Eq_14_1.calc_cvts]; rw [if_neg hmask]; exact le_max_right _ _
  · simp only [Eq_14_2.calc_cvts]; rw [if_neg hmask]; exact le_max_right _ _
  · simp only [Eq_45.calc_cvts]; rw [if_neg hmask]; exact le_max_right _ _
  · simp only [Eq_46.calc_cvts]; rw [if_neg hmask]; exact le_max_right _ _

/-- **C2, counterexample.**  `Eq_14` implements only `calc_cvts`;
requesting `CV8` through `calc_vol` raises `NotImplementedError`
rather than returning zero.  Shown at diameter 15, height 60. -/
theorem C2_counterexample :
    calc_vol eq14_py 15 60 "CV8"
        = Except.error (PyError.notImplementedError notImplementedMsg)
      ∧ calc_vol eq14_py 15 60 "CV8" ≠ Except.ok 0 := by
  have h1 : calc_vol eq14_py 15 60 "CV8"
      = Except.error (PyError.notImplementedError notImplementedMsg) := by
    unfold calc_vol
    rw [show pyUpper "CV8" = "CV8" from by decide]
    rfl
  exact ⟨h1, by rw [h1]; exact fun hcontra => Except.noConfusion hcontra⟩

/-- **C2, amended.**  For `Eq_14` (a root-collar variant defining only
`calc_cvts`), requesting a generally valid but unimplemented metric
through `calc_vol` raises `NotImplementedError` (it is not recovered by
returning zero): shown here for `CV8`, `CV4` and `TARIF` at every
diameter and height. -/
theorem C2_amended (d h : ℝ) :
    calc_vol eq14_py d h "CV8"
        = Except.error (PyError.notImplementedError notImplementedMsg)
      ∧ calc_vol eq14_py d h "CV4"
        = Except.error (PyError.notImplementedError notImplementedMsg)
      ∧ calc_vol eq14_py d h "TARIF"
        = Except.error (PyError.notImplementedError notImplementedMsg) := by
  refine ⟨?_, ?_, ?_⟩
  · unfold calc_vol
    rw [show pyUpper "CV8" = "CV8" from by decide]
    rfl
  · unfold calc_vol
    rw [show pyUpper "CV4" = "CV4" from by decide]
    rfl
  · unfold calc_vol
    rw [show pyUpper "TARIF" = "TARIF" from by decide]
    rfl

/-- **C8, counterexample.**  The rejection of an unrecognized metric
string does not name the offending value: the `ValueError` message for
`calc_vol(12, 85, "NOT_A_METRIC")` does not contain the string
`NOT_A_METRIC` (it names only the allowed set). -/
theorem C8_counterexample :
    calc_vol eq14_py 12 85 "NOT_A_METRIC"
        = Except.error (PyError.valueError unrecognizedMetricMsg)
      ∧ ¬ ("NOT_A_METRIC".data <:+: unrecognizedMetricMsg.data) := by
  constructor
  · unfold calc_vol
    rw [show pyUpper "NOT_A_METRIC" = "NOT_A_METRIC" from by decide]
    unfold dispatch
    rw [if_neg (by decide : ¬ ("NOT_A_METRIC" : String) ∈ AVAILABLE_METRICS)]
  · decide

/-- **C8, amended.**  `calc_vol` matches the metric case-insensitively
against the fixed eleven-member enumeration; every string whose
uppercase form is not a member is rejected with a `ValueError` whose
message names the allowed set (each member occurs in the message) but
not the offending value. -/
theorem C8_amended :
    (∀ (E : PyVolumeEquation) (d h : ℝ) (s : String), pyUpper s ∉ AVAILABLE_METRICS →
        calc_vol E d h s = Except.error (PyError.valueError unrecognizedMetricMsg))
      ∧ (∀ m ∈ AVAILABLE_METRICS, m.data <:+: unrecognizedMetricMsg.data)
      ∧ (∀ (E : PyVolumeEquation) (d h : ℝ) (s1 s2 : String), pyUpper s1 = pyUpper s2 →
        calc_vol E d h s1 = calc_vol E d h s2) := by
  refine ⟨?_, by decide, ?_⟩
  · intro E d h s hs
    unfold calc_vol dispatch
    rw [if_neg hs]
  · intro E d h s1 s2 hup
    unfold calc_vol
    rw [hup]

/-- Witness for C8 at the string `bogus` (rejected) and the
case-insensitive pair `cv4`/`CV4`. -/
theorem C8_amended_witness :
    (pyUpper "bogus" ∉ AVAILABLE_METRICS
      ∧ calc_vol eq14_py 12 85 "bogus" = Except.error (PyError.valueError unrecognizedMetricMsg))
      ∧ (pyUpper "cv4" = pyUpper "CV4"
      ∧ calc_vol eq14_py 12 85 "cv4" = calc_vol eq14_py 12 85 "CV4") :=
  ⟨⟨by decide, C8_amended.1 eq14_py 12 85 "bogus" (by decide)⟩,
   ⟨by decide, C8_amended.2.2 eq14_py 12 85 "cv4" "CV4" (by decide)⟩⟩

/-- **C3, amended.**  For the hardwood boardfoot pipeline (shared by
every hardwood variant), `calc_cv6`, `calc_sv616` and `calc_xint6` are
zeroed when diameter `< 9` or height `≤ 0`, while the 11-inch minimum
applies only to `calc_sv816` and `calc_xint8`. -/
theorem C3_hardwood_zeroing (cv4x tarifx : ℝ → ℝ → ℝ) (d h : ℝ) :
    (d < 9 ∨ h ≤ 0 → HardwoodVolumeEquation.calc_cv6 cv4x d h = 0
      ∧ HardwoodVolumeEquation.calc_sv616 tarifx cv4x d h = 0
      ∧ HardwoodVolumeEquation.calc_xint6 tarifx cv4x d h = 0)
    ∧ (d < 11 ∨ h ≤ 0 → HardwoodVolumeEquation.calc_sv816 tarifx cv4x d h = 0
      ∧ HardwoodVolumeEquation.calc_xint8 tarifx cv4x d h = 0) :=
  ⟨fun hd => ⟨((pipeline_masks tarifx cv4x d h).1 hd).2.2.2.2.1,
     ((pipeline_masks tarifx cv4x d h).1 hd).2.2.2.2.2.1,
     ((pipeline_masks tarifx cv4x d h).1 hd).2.2.2.2.2.2⟩,
   fun hd => (pipeline_masks tarifx cv4x d h).2 hd⟩

/-- Witness for C3 at diameter 8 (below 9) and diameter 10 (below 11),
height 60, with constant-one stand-ins for the overridable methods. -/
theorem C3_hardwood_zeroing_witness :
    (((8:ℝ) < 9 ∨ (60:ℝ) ≤ 0)
      ∧ (HardwoodVolumeEquation.calc_cv6 (fun _ _ => 1) 8 60 = 0
        ∧ HardwoodVolumeEquation.calc_sv616 (fun _ _ => 1) (fun _ _ => 1) 8 60 = 0
        ∧ HardwoodVolumeEquation.calc_xint6 (fun _ _ => 1) (fun _ _ => 1) 8 60 = 0))
    ∧ (((10:ℝ) < 11 ∨ (60:ℝ) ≤ 0)
      ∧ (HardwoodVolumeEquation.calc_sv816 (fun _ _ => 1) (fun _ _ => 1) 10 60 = 0
        ∧ HardwoodVolumeEquation.calc_xint8 (fun _ _ => 1) (fun _ _ => 1) 10 60 = 0)) :=
  ⟨⟨Or.inl (by norm_num),
    (C3_hardwood_zeroing (fun _ _ => 1) (fun _ _ => 1) 8 60).1 (Or.inl (by norm_num))⟩,
   ⟨Or.inl (by norm_num),
    (C3_hardwood_zeroing (fun _ _ => 1) (fun _ _ => 1) 10 60).2 (Or.inl (by norm_num))⟩⟩

/-- **C3, counterexample.**  At diameter 10 (below 11 inches) and
height 60, the hardwood `calc_cv6` of `Eq_32` is strictly positive, so
the claimed 11-inch zeroing of every pipeline output is false. -/
theorem C3_counterexample : Eq_32.calc_cv6 10 60 ≠ 0 := by
  have hcvts : 0 < Eq_32.calc_cvts 10 60 := by
    simp only [Eq_32.calc_cvts, pillsbury_cvts]
    rw [if_neg (by norm_num)]
    have h1 : 0 < (10:ℝ) ^ (2.02232:ℝ) := Real.rpow_pos_of_pos (by norm_num) _
    have h2 : 0 < (60:ℝ) ^ (0.68638:ℝ) := Real.rpow_pos_of_pos (by norm_num) _
    positivity
  have hrts : 0 < 0.9679 - 0.1051 * (0.5523:ℝ) ^ ((10:ℝ) - 1.5) :=
    (bark_factor_bounds 10 (by norm_num)).1
  have hcvt : 0 < Eq_32.calc_cvt 10 60 := by
    simp only [Eq_32.calc_cvt, pillsbury_cvt]
    rw [if_neg (by norm_num)]
    exact mul_pos hcvts hrts
  have hrc6 : 0 < 0.993 - 0.993 * (0.62:ℝ) ^ ((10:ℝ) - 6.0) := by
    have hp : (0.62:ℝ) ^ ((10:ℝ) - 6.0) = (0.62:ℝ) ^ (4:ℕ) := by
      rw [show ((10:ℝ) - 6.0) = ((4:ℕ):ℝ) by norm_num, Real.rpow_natCast]
    rw [hp]; norm_num
  have hcv6 : 0 < Eq_32.calc_cv6 10 60 := by
    simp only [Eq_32.calc_cv6, HardwoodVolumeEquation.calc_cv6, Eq_32.calc_cv4x,
      HardwoodVolumeEquation_WithX.calc_cv4x]
    rw [if_neg (by norm_num)]
    exact lt_max_of_lt_left (mul_pos hrc6 hcvt)
  exact ne_of_gt hcv6

/-- **C1.**  Evaluating the code at the failing input: `Eq_26` has
equation id 26 ∈ [25, 31], yet its `calc_cv4x` (inherited from
`HardwoodVolumeEquation_NoX`) applies the correction polynomial, so at
diameter 15 / height 60 it is strictly below `calc_cvt` instead of
equal to it.  The pass-through branch the claim and the retained
reference implementation assign to ids 25–31 went to `Eq_32`-and-above
instead. -/
theorem C1_code_eval : Eq_26.calc_cv4x 15 60 < Eq_26.calc_cvt 15 60 := by
  have hcvts : 0 < Eq_26.calc_cvts 15 60 := by
    simp only [Eq_26.calc_cvts, dnr_cvts]
    rw [if_neg (by norm_num)]
    exact Real.rpow_pos_of_pos (by norm_num) _
  have hden : 0 < dnr_denom 15 := dnr_denom_pos 15 (by norm_num)
  have htarif : 0 < Eq_26.calc_tarif 15 60 := by
    simp only [Eq_26.calc_tarif, dnr_tarif]
    rw [if_neg (by norm_num)]
    exact div_pos (mul_pos hcvts (by norm_num)) hden
  have hbark := (bark_factor_bounds 15 (by norm_num)).1
  have hterm := pnw_term_pos 15 (by norm_num)
  have hcvt : 0 < Eq_26.calc_cvt 15 60 := by
    simp only [Eq_26.calc_cvt, dnr_cvt]
    rw [if_neg (by norm_num)]
    exact div_pos (mul_pos (mul_pos htarif hbark) hterm) (by norm_num)
  have hP : (0.99875 - 43.336 / (15:ℝ) ^ 3 - 124.717 / (15:ℝ) ^ 4
      + 0.193437 * 60 / (15:ℝ) ^ 3 + 479.83 / ((15:ℝ) ^ 3 * 60)) < 1 := by norm_num
  simp only [Eq_26.calc_cv4x, HardwoodVolumeEquation_NoX.calc_cv4x]
  nlinarith [mul_pos hcvt (show (0:ℝ) < 1 - (0.99875 - 43.336 / (15:ℝ) ^ 3
    - 124.717 / (15:ℝ) ^ 4 + 0.193437 * 60 / (15:ℝ) ^ 3
    + 479.83 / ((15:ℝ) ^ 3 * 60)) by norm_num)]

/-- **C4.**  Evaluating the code at the failing input: at diameter 10
and height `10⁻¹⁰` feet, `Eq_1.calc_tarif` is far below the 0.01 floor;
`calc_sv616`/`calc_sv632` clip it up to exactly 0.01 before use
(`np.clip(tarif, 0.01, None)` is `max tarif 0.01`), but `calc_xint6`
feeds this raw sub-floor value to `log10(dbh * tarif)`. -/
theorem C4_code_eval :
    Eq_1.calc_tarif 10 (1 / 10000000000) < 0.01
      ∧ max (Eq_1.calc_tarif 10 (1 / 10000000000)) 0.01 = 0.01 := by
  have hlog10 : Real.log 10 ≠ 0 := ne_of_gt (Real.log_pos (by norm_num))
  have hLd : log10 10 = 1 := by
    unfold log10; exact div_self hlog10
  have hLh : log10 (1 / 10000000000) = -10 := by
    unfold log10
    rw [show (1 / 10000000000 : ℝ) = ((10:ℝ) ^ (10:ℕ))⁻¹ by norm_num, Real.log_inv,
      Real.log_pow]
    field_simp
  have hcvts_le : Eq_1.calc_cvts 10 (1 / 10000000000) ≤ (10:ℝ) ^ (-(34:ℝ)) := by
    simp only [Eq_1.calc_cvts]
    rw [if_neg (by norm_num)]
    rw [hLd, hLh]
    exact Real.rpow_le_rpow_of_exponent_le (by norm_num) (by norm_num)
  have h1010 : (10:ℝ) ^ (-(34:ℝ)) = ((10:ℝ) ^ (34:ℕ))⁻¹ := by
    rw [Real.rpow_neg (by norm_num), show ((34:ℝ)) = ((34:ℕ):ℝ) by norm_num,
      Real.rpow_natCast]
  have hden : (0.479:ℝ) ≤ dnr10_denom 10 := by
    unfold dnr10_denom
    nlinarith [Real.exp_pos (-4.105292 * ((10:ℝ) / 10.0))]
  have h1 : Eq_1.calc_tarif 10 (1 / 10000000000) < 0.01 := by
    simp only [Eq_1.calc_tarif, dnr10_tarif]
    rw [if_neg (by norm_num)]
    have hnum : Eq_1.calc_cvts 10 (1 / 10000000000) * 0.912733
        ≤ (10:ℝ) ^ (-(34:ℝ)) * 0.912733 :=
      mul_le_mul_of_nonneg_right hcvts_le (by norm_num)
    calc Eq_1.calc_cvts 10 (1 / 10000000000) * 0.912733 / dnr10_denom 10
        ≤ (10:ℝ) ^ (-(34:ℝ)) * 0.912733 / 0.479 := by
          apply div_le_div (by positivity) hnum (by norm_num) hden
      _ < 0.01 := by rw [h1010]; norm_num
  exact ⟨h1, max_eq_right h1.le⟩

/-- **C5, counterexample.**  The chain `CV4 ≤ CVT` fails for `Eq_26` at
diameter 400 inches, height 100 feet (diameter ≥ 11, height > 0):
there `calc_cvt < calc_cv4`, because the bark correction
`0.9679 * TERM` falls below `ba - 0.087266` once
`0.005454154 * d² ≈ 0.00016 * ba` outgrows the bark discount. -/
theorem C5_counterexample : Eq_26.calc_cvt 400 100 < Eq_26.calc_cv4 400 100 := by
  have hcvts : 0 < Eq_26.calc_cvts 400 100 := by
    simp only [Eq_26.calc_cvts, dnr_cvts]
    rw [if_neg (by norm_num)]
    exact Real.rpow_pos_of_pos (by norm_num) _
  have hden : 0 < dnr_denom 400 := dnr_denom_pos 400 (by norm_num)
  have htarif : 0 < Eq_26.calc_tarif 400 100 := by
    simp only [Eq_26.calc_tarif, dnr_tarif]
    rw [if_neg (by norm_num)]
    exact div_pos (mul_pos hcvts (by norm_num)) hden
  have hq : 0 < (0.5523:ℝ) ^ ((400:ℝ) - 1.5) := Real.rpow_pos_of_pos (by norm_num) _
  have hterm := pnw_term_pos 400 (by norm_num)
  have hE : Real.exp (-4.015292 * ((400:ℝ) / 10.0)) ≤ 0.00001 := by
    have h1 : Real.exp (-4.015292 * ((400:ℝ) / 10.0)) ≤ Real.exp (-(17:ℝ)) :=
      Real.exp_le_exp.mpr (by norm_num)
    have h2 : Real.exp (-(17:ℝ)) = (Real.exp (-(1:ℝ))) ^ 17 := by
      rw [← Real.exp_nat_mul]
      congr 1
      push_cast
      ring
    have h3 : Real.exp (-(1:ℝ)) ≤ 1 / 2 := by
      rw [Real.exp_neg]
      have h4 : (2:ℝ) ≤ Real.exp 1 := by nlinarith [Real.exp_one_gt_d9]
      calc (Real.exp 1)⁻¹ ≤ (2:ℝ)⁻¹ := by
            exact inv_le_inv_of_le (by norm_num) h4
        _ = 1 / 2 := by norm_num
    have h5 : (Real.exp (-(1:ℝ))) ^ 17 ≤ (1 / 2 : ℝ) ^ 17 :=
      pow_le_pow_left₀ (Real.exp_pos _).le h3 17
    calc Real.exp (-4.015292 * ((400:ℝ) / 10.0)) ≤ Real.exp (-(17:ℝ)) := h1
      _ = (Real.exp (-(1:ℝ))) ^ 17 := h2
      _ ≤ (1 / 2 : ℝ) ^ 17 := h5
      _ ≤ 0.00001 := by norm_num
  have hub : pnw_term 400 ≤ 901.391 := by
    unfold pnw_term
    nlinarith [hE, (Real.exp_pos (-4.015292 * ((400:ℝ) / 10.0))).le]
  have hkey : (0.9679 - 0.1051 * (0.5523:ℝ) ^ ((400:ℝ) - 1.5)) * pnw_term 400
      < 0.005454154 * (400:ℝ) ^ 2 - 0.087266 := by
    nlinarith [mul_pos hq hterm]
  simp only [Eq_26.calc_cvt, Eq_26.calc_cv4, dnr_cvt, dnr_cv4]
  rw [if_neg (by norm_num), if_neg (by norm_num)]
  rw [div_lt_div_iff (by norm_num) (by norm_num)]
  nlinarith [mul_lt_mul_of_pos_left hkey htarif]

/-- **C5, amended.**  For every hardwood variant that defines all five
cubic metrics (`Eq_25` .. `Eq_44`), the link `CVT ≤ CVTS` of the chain
does hold for every diameter ≥ 11 inches and positive height (the full
chain `CV8 ≤ CV6 ≤ CV4 ≤ CVT ≤ CVTS` is not an invariant of the code:
see the counterexample, where `CV4 > CVT`). -/
theorem C5_cvt_le_cvts (d h : ℝ) (hd : 11 ≤ d) (hh : 0 < h) :
    Eq_25.calc_cvt d h ≤ Eq_25.calc_cvts d h
      ∧ Eq_26.calc_cvt d h ≤ Eq_26.calc_cvts d h
      ∧ Eq_27.calc_cvt d h ≤ Eq_27.calc_cvts d h
      ∧ Eq_28.calc_cvt d h ≤ Eq_28.calc_cvts d h
      ∧ Eq_29.calc_cvt d h ≤ Eq_29.calc_cvts d h
      ∧ Eq_30.calc_cvt d h ≤ Eq_30.calc_cvts d h
      ∧ Eq_31.calc_cvt d h ≤ Eq_31.calc_cvts d h
      ∧ Eq_32.calc_cvt d h ≤ Eq_32.calc_cvts d h
      ∧ Eq_33.calc_cvt d h ≤ Eq_33.calc_cvts d h
      ∧ Eq_34.calc_cvt d h ≤ Eq_34.calc_cvts d h
      ∧ Eq_35.calc_cvt d h ≤ Eq_35.calc_cvts d h
      ∧ Eq_36.calc_cvt d h ≤ Eq_36.calc_cvts d h
      ∧ Eq_37.calc_cvt d h ≤ Eq_37.calc_cvts d h
      ∧ Eq_38.calc_cvt d h ≤ Eq_38.calc_cvts d h
      ∧ Eq_39.calc_cvt d h ≤ Eq_39.calc_cvts d h
      ∧ Eq_40.calc_cvt d h ≤ Eq_40.calc_cvts d h
      ∧ Eq_41.calc_cvt d h ≤ Eq_41.calc_cvts d h
      ∧ Eq_42.calc_cvt d h ≤ Eq_42.calc_cvts d h
      ∧ Eq_43.calc_cvt d h ≤ Eq_43.calc_cvts d h
      ∧ Eq_44.calc_cvt d h ≤ Eq_44.calc_cvts d h :=
  ⟨eq25_cvt_le_cvts d h hd hh,
   dnr_cvt_le_cvts Eq_26.calc_cvts (dnr_cvts_nonneg _ _ _) d h hd hh,
   dnr_cvt_le_cvts Eq_27.calc_cvts (dnr_cvts_nonneg _ _ _) d h hd hh,
   dnr_cvt_le_cvts Eq_28.calc_cvts (dnr_cvts_nonneg _ _ _) d h hd hh,
   dnr_cvt_le_cvts Eq_29.calc_cvts (dnr_cvts_nonneg _ _ _) d h hd hh,
   dnr_cvt_le_cvts Eq_30.calc_cvts (dnr_cvts_nonneg _ _ _) d h hd hh,
   dnr_cvt_le_cvts Eq_31.calc_cvts (fun x y => (custom_cvts_nonneg x y 1).2.2.2.2.2.2.1) d h hd hh,
   pillsbury_cvt_le_cvts Eq_32.calc_cvts (pillsbury_cvts_nonneg _ _ _ (by norm_num)) d h,
   pillsbury_cvt_le_cvts Eq_33.calc_cvts (pillsbury_cvts_nonneg _ _ _ (by norm_num)) d h,
   pillsbury_cvt_le_cvts Eq_34.calc_cvts (pillsbury_cvts_nonneg _ _ _ (by norm_num)) d h,
   pillsbury_cvt_le_cvts Eq_35.calc_cvts (pillsbury_cvts_nonneg _ _ _ (by norm_num)) d h,
   pillsbury_cvt_le_cvts Eq_36.calc_cvts (pillsbury_cvts_nonneg _ _ _ (by norm_num)) d h,
   pillsbury_cvt_le_cvts Eq_37.calc_cvts (pillsbury_cvts_nonneg _ _ _ (by norm_num)) d h,
   pillsbury_cvt_le_cvts Eq_38.calc_cvts (pillsbury_cvts_nonneg _ _ _ (by norm_num)) d h,
   pillsbury_cvt_le_cvts Eq_39.calc_cvts (pillsbury_cvts_nonneg _ _ _ (by norm_num)) d h,
   pillsbury_cvt_le_cvts Eq_40.calc_cvts (pillsbury_cvts_nonneg _ _ _ (by norm_num)) d h,
   pillsbury_cvt_le_cvts Eq_41.calc_cvts (pillsbury_cvts_nonneg _ _ _ (by norm_num)) d h,
   pillsbury_cvt_le_cvts Eq_42.calc_cvts (pillsbury_cvts_nonneg _ _ _ (by norm_num)) d h,
   pillsbury_cvt_le_cvts Eq_43.calc_cvts (pillsbury_cvts_nonneg _ _ _ (by norm_num)) d h,
   pillsbury_cvt_le_cvts Eq_44.calc_cvts (pillsbury_cvts_nonneg _ _ _ (by norm_num)) d h⟩

/-- Witness for the amended C5 at diameter 12, height 85. -/
theorem C5_cvt_le_cvts_witness :
    ((11:ℝ) ≤ 12 ∧ (0:ℝ) < 85)
      ∧ (Eq_25.calc_cvt 12 85 ≤ Eq_25.calc_cvts 12 85
        ∧ Eq_26.calc_cvt 12 85 ≤ Eq_26.calc_cvts 12 85
        ∧ Eq_27.calc_cvt 12 85 ≤ Eq_27.calc_cvts 12 85
        ∧ Eq_28.calc_cvt 12 85 ≤ Eq_28.calc_cvts 12 85
        ∧ Eq_29.calc_cvt 12 85 ≤ Eq_29.calc_cvts 12 85
        ∧ Eq_30.calc_cvt 12 85 ≤ Eq_30.calc_cvts 12 85
        ∧ Eq_31.calc_cvt 12 85 ≤ Eq_31.calc_cvts 12 85
        ∧ Eq_32.calc_cvt 12 85 ≤ Eq_32.calc_cvts 12 85
        ∧ Eq_33.calc_cvt 12 85 ≤ Eq_33.calc_cvts 12 85
        ∧ Eq_34.calc_cvt 12 85 ≤ Eq_34.calc_cvts 12 85
        ∧ Eq_35.calc_cvt 12 85 ≤ Eq_35.calc_cvts 12 85
        ∧ Eq_36.calc_cvt 12 85 ≤ Eq_36.calc_cvts 12 85
        ∧ Eq_37.calc_cvt 12 85 ≤ Eq_37.calc_cvts 12 85
        ∧ Eq_38.calc_cvt 12 85 ≤ Eq_38.calc_cvts 12 85
        ∧ Eq_39.calc_cvt 12 85 ≤ Eq_39.calc_cvts 12 85
        ∧ Eq_40.calc_cvt 12 85 ≤ Eq_40.calc_cvts 12 85
        ∧ Eq_41.calc_cvt 12 85 ≤ Eq_41.calc_cvts 12 85
        ∧ Eq_42.calc_cvt 12 85 ≤ Eq_42.calc_cvts 12 85
        ∧ Eq_43.calc_cvt 12 85 ≤ Eq_43.calc_cvts 12 85
        ∧ Eq_44.calc_cvt 12 85 ≤ Eq_44.calc_cvts 12 85) :=
  ⟨⟨by norm_num, by norm_num⟩, C5_cvt_le_cvts 12 85 (by norm_num) (by norm_num)⟩

/-- Witness for C10 at `drc = 3`, height 20 feet, one stem. -/
theorem C10_drc_cvts_floor_witness :
    ((1:ℝ) ≤ 3 ∧ (0:ℝ) < 20)
      ∧ (0.1 ≤ Eq_14.calc_cvts 3 20 1
        ∧ 0.1 ≤ Eq_14_1.calc_cvts 3 20 1
        ∧ 0.1 ≤ Eq_14_2.calc_cvts 3 20
        ∧ 0.1 ≤ Eq_45.calc_cvts 3 20 1
        ∧ 0.1 ≤ Eq_46.calc_cvts 3 20 1) :=
  ⟨⟨by norm_num, by norm_num⟩, C10_drc_cvts_floor 3 20 1 (by norm_num) (by norm_num)⟩


/-- **C6 counterexample.** The blanket non-negativity claim fails for a
defined metric inside the claimed domain: `Eq_21` (western juniper)
computes `CV4` by a raw rational formula with no floor, and at
`dbh = 5`, `ht = 1/2` (inside `[0,100) x [0,400)`) the result is
negative: `CVTS` is about `0.00033`, so
`CV4 = (CVTS + 3.48) / (1.18052 + 0.32736 * exp(-1/2)) - 2.948 < 0`. -/
theorem C6_counterexample : Eq_21.calc_cv4 5 (1 / 2) < 0 := by
  have hcvts_lb : (0:ℝ) ≤ Eq_21.calc_cvts 5 (1 / 2) :=
    (custom_cvts_nonneg 5 (1 / 2) 1).2.2.2.2.1
  have hcvts_ub : Eq_21.calc_cvts 5 (1 / 2) ≤ 0.00034 := by
    simp only [Eq_21.calc_cvts]
    rw [if_neg (by norm_num)]
    exact max_le (by norm_num) (by norm_num)
  have hsq : Real.exp (1 / 2 : ℝ) * Real.exp (1 / 2 : ℝ) = Real.exp 1 := by
    rw [← Real.exp_add]; norm_num
  have hxpos : (0:ℝ) < Real.exp (1 / 2 : ℝ) := Real.exp_pos _
  have hxu : Real.exp (1 / 2 : ℝ) < 5 / 3 := by
    nlinarith [Real.exp_one_lt_d9, hsq, hxpos]
  have hmul : Real.exp (-(1 / 2) : ℝ) * Real.exp (1 / 2 : ℝ) = 1 := by
    rw [← Real.exp_add]; norm_num
  have hE : (3 / 5 : ℝ) < Real.exp (-(1 / 2) : ℝ) := by
    nlinarith [hmul, hxu, Real.exp_pos (-(1 / 2) : ℝ),
      mul_pos (Real.exp_pos (-(1 / 2) : ℝ))
        (show (0:ℝ) < 5 / 3 - Real.exp (1 / 2 : ℝ) by linarith)]
  simp only [Eq_21.calc_cv4]
  rw [if_neg (by norm_num), show (-0.1 * (5:ℝ)) = -(1 / 2) from by norm_num, sub_neg]
  have hD : (0:ℝ) < 1.18052 + 0.32736 * Real.exp (-(1 / 2) : ℝ) := by positivity
  rw [div_lt_iff hD]
  nlinarith [hE, hcvts_ub, hcvts_lb]

/-- **C6.** Corrected non-negativity: the spec holds for every `CVTS`
variant — each `calc_cvts` carries its floor or is manifestly
non-negative, at every input (in particular on `[0,100) x [0,400)`) —
and for every floored boardfoot/CV6 pipeline output, whatever the
underlying `cv4`/`tarif` (resp. `cv4x`/`tarifx`) methods return.  The
blanket version over all defined metrics is refuted by the unfloored
`Eq_21.calc_cv4` (see the counterexample). -/
theorem C6_cvts_nonneg (d h s : ℝ) :
    (∀ f ∈ all_cvts s, 0 ≤ f d h)
    ∧ (∀ f g : ℝ → ℝ → ℝ,
        0 ≤ SoftwoodVolumeEquation.calc_sv616 f g d h
        ∧ 0 ≤ SoftwoodVolumeEquation.calc_sv632 f g d h
        ∧ 0 ≤ SoftwoodVolumeEquation.calc_xint6 f g d h
        ∧ 0 ≤ HardwoodVolumeEquation.calc_cv6 f d h
        ∧ 0 ≤ HardwoodVolumeEquation.calc_sv616 f g d h
        ∧ 0 ≤ HardwoodVolumeEquation.calc_sv816 f g d h
        ∧ 0 ≤ HardwoodVolumeEquation.calc_xint6 f g d h
        ∧ 0 ≤ HardwoodVolumeEquation.calc_xint8 f g d h) := by
  constructor
  · simp only [all_cvts, List.forall_mem_cons, List.not_mem_nil, false_implies, implies_true, and_true]
    exact ⟨(custom_cvts_nonneg d h s).1,
      (custom_cvts_nonneg d h s).2.1,
      pnw_cvts_nonneg _ _ (fun x y => (eq3_eq5_nonneg x y).1) (pnw_tarif_nonneg _) d h,
      (custom_cvts_nonneg d h s).2.2.1,
      (eq3_eq5_nonneg d h).2.2.2,
      (custom_cvts_nonneg d h s).2.2.2.1,
      dnr_cvts_nonneg _ _ _ d h,
      dnr_cvts_nonneg _ _ _ d h,
      dnr_cvts_nonneg _ _ _ d h,
      dnr_cvts_nonneg _ _ _ d h,
      dnr_cvts_nonneg _ _ _ d h,
      dnr_cvts_nonneg _ _ _ d h,
      dnr_cvts_nonneg _ _ _ d h,
      (custom_cvts_nonneg d h s).2.2.2.2.2.2.2.2.1,
      (custom_cvts_nonneg d h s).2.2.2.2.2.2.2.2.2.1,
      (custom_cvts_nonneg d h s).2.2.2.2.2.2.2.2.2.2.1,
      dnr_cvts_nonneg _ _ _ d h,
      pnw_cvts_nonneg _ _ (pnw_cv4_nonneg _ (fun x y => (cf4_nonneg_all x y).2.1)) (pnw_tarif_nonneg _) d h,
      pillsbury_cvts_nonneg _ _ _ (by norm_num) d h,
      pnw_cvts_nonneg _ _ (pnw_cv4_nonneg _ (fun x y => (cf4_nonneg_all x y).2.2.1)) (pnw_tarif_nonneg _) d h,
      pnw_cvts_nonneg _ _ (pnw_cv4_nonneg _ (fun x y => (cf4_nonneg_all x y).2.2.2.1)) (pnw_tarif_nonneg _) d h,
      pnw_cvts_nonneg _ _ (pnw_cv4_nonneg _ (fun x y => (cf4_nonneg_all x y).2.2.2.2.1)) (pnw_tarif_nonneg _) d h,
      (custom_cvts_nonneg d h s).2.2.2.2.1,
      dnr_cvts_nonneg _ _ _ d h,
      pnw_cvts_nonneg _ _ (pnw_cv4_nonneg _ (fun x y => (cf4_nonneg_all x y).2.2.2.2.2)) (pnw_tarif_nonneg _) d h,
      (custom_cvts_nonneg d h s).2.2.2.2.2.1,
      (custom_cvts_nonneg d h s).2.2.2.2.2.2.2.1,
      dnr_cvts_nonneg _ _ _ d h,
      dnr_cvts_nonneg _ _ _ d h,
      dnr_cvts_nonneg _ _ _ d h,
      dnr_cvts_nonneg _ _ _ d h,
      dnr_cvts_nonneg _ _ _ d h,
      (custom_cvts_nonneg d h s).2.2.2.2.2.2.1,
      pillsbury_cvts_nonneg _ _ _ (by norm_num) d h,
      pillsbury_cvts_nonneg _ _ _ (by norm_num) d h,
      pillsbury_cvts_nonneg _ _ _ (by norm_num) d h,
      pillsbury_cvts_nonneg _ _ _ (by norm_num) d h,
      pillsbury_cvts_nonneg _ _ _ (by norm_num) d h,
      pillsbury_cvts_nonneg _ _ _ (by norm_num) d h,
      pillsbury_cvts_nonneg _ _ _ (by norm_num) d h,
      pillsbury_cvts_nonneg _ _ _ (by norm_num) d h,
      pillsbury_cvts_nonneg _ _ _ (by norm_num) d h,
      pillsbury_cvts_nonneg _ _ _ (by norm_num) d h,
      pillsbury_cvts_nonneg _ _ _ (by norm_num) d h,
      pillsbury_cvts_nonneg _ _ _ (by norm_num) d h,
      pillsbury_cvts_nonneg _ _ _ (by norm_num) d h,
      (custom_cvts_nonneg d h s).2.2.2.2.2.2.2.2.2.2.2.1,
      (custom_cvts_nonneg d h s).2.2.2.2.2.2.2.2.2.2.2.2⟩
  · exact fun f g => pipeline_nonneg f g d h

/-- Witness for C6 at `dbh = 12`, `ht = 85`, one stem, sampling the
`Eq_21` CVTS entry and the hardwood SV816 pipeline. -/
theorem C6_cvts_nonneg_witness :
    Eq_21.calc_cvts ∈ all_cvts 1
    ∧ 0 ≤ Eq_21.calc_cvts 12 85
    ∧ 0 ≤ HardwoodVolumeEquation.calc_sv816 (fun _ _ => 1) (fun _ _ => 1) 12 85 :=
  ⟨by simp [all_cvts],
   (C6_cvts_nonneg 12 85 1).1 Eq_21.calc_cvts (by simp [all_cvts]),
   ((C6_cvts_nonneg 12 85 1).2 (fun _ _ => 1) (fun _ _ => 1)).2.2.2.2.2.1⟩

/-- **C7 counterexample.** The claimed `CVTS = 0` boundary at
`ht <= 0` fails for `Eq_25` (red alder): its `np.clip(ht, 18, None)`
runs before the mask is evaluated, so the mask tests the clamped
height `18` and `calc_cvts 15 (-5) = calc_cvts 15 18 > 0`. -/
theorem C7_counterexample : Eq_25.calc_cvts 15 (-5) ≠ 0 := by
  rw [(eq25_clamps 15 (-5) (by norm_num)).2.2.1]
  exact ne_of_gt eq25_cvts_pos_15_18

/-- **C7.** Corrected zero boundaries: `CV4` is zeroed for `d < 5`,
`CV8` for `d < 11`, `CVTS` for `d < 1` (every variant), `TARIF` for
`d <= 0` and `CVT` for `d < 1`; the `ht <= 0` zeroing of `CVTS` holds
for every variant except `Eq_25`, whose height clamp precedes the mask
(see the counterexample); and the boardfoot/CV6 pipelines are zeroed at
their size classes.  At `d = 0` every antecedent below `d` is
satisfied, so every metric is 0 at `(0, 85)`. -/
theorem C7_zero_boundaries (d h s : ℝ) :
    (d < 5 → ∀ f ∈ all_cv4, f d h = 0)
    ∧ (d < 11 → ∀ f ∈ all_cv8, f d h = 0)
    ∧ (d < 1 → ∀ f ∈ all_cvts s, f d h = 0)
    ∧ (h ≤ 0 → ∀ f ∈ all_cvts_unclamped s, f d h = 0)
    ∧ (d ≤ 0 → ∀ f ∈ all_tarif, f d h = 0)
    ∧ (d < 1 → ∀ f ∈ all_cvt, f d h = 0)
    ∧ (∀ f g : ℝ → ℝ → ℝ,
        (d < 9 ∨ h ≤ 0 →
          SoftwoodVolumeEquation.calc_cv6 f d h = 0
          ∧ SoftwoodVolumeEquation.calc_sv616 f g d h = 0
          ∧ SoftwoodVolumeEquation.calc_sv632 f g d h = 0
          ∧ SoftwoodVolumeEquation.calc_xint6 f g d h = 0
          ∧ HardwoodVolumeEquation.calc_cv6 g d h = 0
          ∧ HardwoodVolumeEquation.calc_sv616 f g d h = 0
          ∧ HardwoodVolumeEquation.calc_xint6 f g d h = 0)
        ∧ (d < 11 ∨ h ≤ 0 →
          HardwoodVolumeEquation.calc_sv816 f g d h = 0
          ∧ HardwoodVolumeEquation.calc_xint8 f g d h = 0)) := by
  refine ⟨fun hd => ?_, fun hd => ?_, fun hd => ?_, fun hh => ?_, fun hd => ?_, fun hd => ?_,
    fun f g => pipeline_masks f g d h⟩
  · have m := cv4_masks d h (Or.inl hd)
    simp only [all_cv4, List.forall_mem_cons, List.not_mem_nil, false_implies, implies_true, and_true]
    exact ⟨m.1 _,
      m.1 _,
      m.2.2.2.1,
      m.1 _,
      m.2.2.2.2.1,
      m.1 _,
      m.1 _,
      m.1 _,
      m.1 _,
      m.1 _,
      m.1 _,
      m.1 _,
      m.1 _,
      m.1 _,
      m.2.1 _,
      m.1 _,
      m.2.1 _,
      m.2.1 _,
      m.2.1 _,
      m.2.2.2.2.2,
      m.1 _,
      m.2.1 _,
      m.1 _,
      (eq25_masks d h).2.2.1 hd,
      m.1 _,
      m.1 _,
      m.1 _,
      m.1 _,
      m.1 _,
      m.1 _,
      m.2.2.1 _ _ _,
      m.2.2.1 _ _ _,
      m.2.2.1 _ _ _,
      m.2.2.1 _ _ _,
      m.2.2.1 _ _ _,
      m.2.2.1 _ _ _,
      m.2.2.1 _ _ _,
      m.2.2.1 _ _ _,
      m.2.2.1 _ _ _,
      m.2.2.1 _ _ _,
      m.2.2.1 _ _ _,
      m.2.2.1 _ _ _,
      m.2.2.1 _ _ _⟩
  · have m := cv8_masks d h (Or.inl hd)
    simp only [all_cv8, List.forall_mem_cons, List.not_mem_nil, false_implies, implies_true, and_true]
    exact ⟨(eq25_masks d h).2.2.2 hd,
      m.1 _,
      m.1 _,
      m.1 _,
      m.1 _,
      m.1 _,
      m.1 _,
      m.2.1 _ _ _,
      m.2.1 _ _ _,
      m.2.1 _ _ _,
      m.2.1 _ _ _,
      m.2.2.2,
      m.2.2.1 _ _ _ _ _ _ _ _ _,
      m.2.2.1 _ _ _ _ _ _ _ _ _,
      m.2.2.1 _ _ _ _ _ _ _ _ _,
      m.2.2.1 _ _ _ _ _ _ _ _ _,
      m.2.2.1 _ _ _ _ _ _ _ _ _,
      m.2.2.1 _ _ _ _ _ _ _ _ _,
      m.2.2.1 _ _ _ _ _ _ _ _ _,
      m.2.2.1 _ _ _ _ _ _ _ _ _⟩
  · have m := cvts_masks d h s (Or.inl hd)
    simp only [all_cvts, List.forall_mem_cons, List.not_mem_nil, false_implies, implies_true, and_true]
    exact ⟨m.2.2.2.1,
      m.2.2.2.2.1,
      m.2.1 _ _,
      m.2.2.2.2.2.1,
      m.2.2.2.2.2.2.1,
      m.2.2.2.2.2.2.2.1,
      m.1 _ _ _,
      m.1 _ _ _,
      m.1 _ _ _,
      m.1 _ _ _,
      m.1 _ _ _,
      m.1 _ _ _,
      m.1 _ _ _,
      m.2.2.2.2.2.2.2.2.2.2.2.1,
      m.2.2.2.2.2.2.2.2.2.2.2.2.1,
      m.2.2.2.2.2.2.2.2.2.2.2.2.2.1,
      m.1 _ _ _,
      m.2.1 _ _,
      m.2.2.1 _ _ _,
      m.2.1 _ _,
      m.2.1 _ _,
      m.2.1 _ _,
      m.2.2.2.2.2.2.2.2.1,
      m.1 _ _ _,
      m.2.1 _ _,
      m.2.2.2.2.2.2.2.2.2.1,
      ((eq25_masks d h).1 hd).1,
      m.1 _ _ _,
      m.1 _ _ _,
      m.1 _ _ _,
      m.1 _ _ _,
      m.1 _ _ _,
      m.2.2.2.2.2.2.2.2.2.2.1,
      m.2.2.1 _ _ _,
      m.2.2.1 _ _ _,
      m.2.2.1 _ _ _,
      m.2.2.1 _ _ _,
      m.2.2.1 _ _ _,
      m.2.2.1 _ _ _,
      m.2.2.1 _ _ _,
      m.2.2.1 _ _ _,
      m.2.2.1 _ _ _,
      m.2.2.1 _ _ _,
      m.2.2.1 _ _ _,
      m.2.2.1 _ _ _,
      m.2.2.1 _ _ _,
      m.2.2.2.2.2.2.2.2.2.2.2.2.2.2.1,
      m.2.2.2.2.2.2.2.2.2.2.2.2.2.2.2⟩
  · have m := cvts_masks d h s (Or.inr hh)
    simp only [all_cvts_unclamped, List.forall_mem_cons, List.not_mem_nil, false_implies, implies_true, and_true]
    exact ⟨m.2.2.2.1,
      m.2.2.2.2.1,
      m.2.1 _ _,
      m.2.2.2.2.2.1,
      m.2.2.2.2.2.2.1,
      m.2.2.2.2.2.2.2.1,
      m.1 _ _ _,
      m.1 _ _ _,
      m.1 _ _ _,
      m.1 _ _ _,
      m.1 _ _ _,
      m.1 _ _ _,
      m.1 _ _ _,
      m.2.2.2.2.2.2.2.2.2.2.2.1,
      m.2.2.2.2.2.2.2.2.2.2.2.2.1,
      m.2.2.2.2.2.2.2.2.2.2.2.2.2.1,
      m.1 _ _ _,
      m.2.1 _ _,
      m.2.2.1 _ _ _,
      m.2.1 _ _,
      m.2.1 _ _,
      m.2.1 _ _,
      m.2.2.2.2.2.2.2.2.1,
      m.1 _ _ _,
      m.2.1 _ _,
      m.2.2.2.2.2.2.2.2.2.1,
      m.1 _ _ _,
      m.1 _ _ _,
      m.1 _ _ _,
      m.1 _ _ _,
      m.1 _ _ _,
      m.2.2.2.2.2.2.2.2.2.2.1,
      m.2.2.1 _ _ _,
      m.2.2.1 _ _ _,
      m.2.2.1 _ _ _,
      m.2.2.1 _ _ _,
      m.2.2.1 _ _ _,
      m.2.2.1 _ _ _,
      m.2.2.1 _ _ _,
      m.2.2.1 _ _ _,
      m.2.2.1 _ _ _,
      m.2.2.1 _ _ _,
      m.2.2.1 _ _ _,
      m.2.2.1 _ _ _,
      m.2.2.1 _ _ _,
      m.2.2.2.2.2.2.2.2.2.2.2.2.2.2.1,
      m.2.2.2.2.2.2.2.2.2.2.2.2.2.2.2⟩
  · have m := tarif_masks d h (Or.inl hd)
    simp only [all_tarif, List.forall_mem_cons, List.not_mem_nil, false_implies, implies_true, and_true]
    exact ⟨m.2.1 _,
      m.2.1 _,
      m.2.2.1 _,
      m.1 _,
      m.2.2.2.2,
      m.1 _,
      m.1 _,
      m.1 _,
      m.1 _,
      m.1 _,
      m.1 _,
      m.1 _,
      m.1 _,
      m.1 _,
      m.2.2.1 _,
      m.1 _,
      m.2.2.1 _,
      m.2.2.1 _,
      m.2.2.1 _,
      m.1 _,
      m.1 _,
      m.2.2.1 _,
      m.1 _,
      (eq25_masks d h).2.1 hd,
      m.1 _,
      m.1 _,
      m.1 _,
      m.1 _,
      m.1 _,
      m.1 _,
      m.2.2.2.1 _,
      m.2.2.2.1 _,
      m.2.2.2.1 _,
      m.2.2.2.1 _,
      m.2.2.2.1 _,
      m.2.2.2.1 _,
      m.2.2.2.1 _,
      m.2.2.2.1 _,
      m.2.2.2.1 _,
      m.2.2.2.1 _,
      m.2.2.2.1 _,
      m.2.2.2.1 _,
      m.2.2.2.1 _⟩
  · have m := cvt_masks d h (Or.inl hd)
    simp only [all_cvt, List.forall_mem_cons, List.not_mem_nil, false_implies, implies_true, and_true]
    exact ⟨m.1 _,
      m.1 _,
      m.1 _,
      m.1 _,
      m.1 _,
      m.1 _,
      m.1 _,
      m.1 _,
      m.1 _,
      m.1 _,
      m.1 _,
      m.1 _,
      m.1 _,
      m.1 _,
      m.1 _,
      m.1 _,
      m.1 _,
      m.1 _,
      m.1 _,
      m.1 _,
      m.1 _,
      m.1 _,
      m.1 _,
      ((eq25_masks d h).1 hd).2,
      m.1 _,
      m.1 _,
      m.1 _,
      m.1 _,
      m.1 _,
      m.1 _,
      m.2 _,
      m.2 _,
      m.2 _,
      m.2 _,
      m.2 _,
      m.2 _,
      m.2 _,
      m.2 _,
      m.2 _,
      m.2 _,
      m.2 _,
      m.2 _,
      m.2 _⟩

/-- Witness for C7 at `d = 0`, `h = -1`, one stem: every antecedent of
the theorem holds there, and a representative member of each family is
sampled. -/
theorem C7_zero_boundaries_witness :
    ((0:ℝ) < 5 ∧ (0:ℝ) < 11 ∧ (0:ℝ) < 1 ∧ (-1:ℝ) ≤ 0 ∧ (0:ℝ) ≤ 0 ∧ ((0:ℝ) < 9 ∨ (-1:ℝ) ≤ 0))
    ∧ Eq_1.calc_cv4 ∈ all_cv4 ∧ Eq_1.calc_cv4 0 (-1) = 0
    ∧ Eq_26.calc_cv8 ∈ all_cv8 ∧ Eq_26.calc_cv8 0 (-1) = 0
    ∧ Eq_25.calc_cvts ∈ all_cvts 1 ∧ Eq_25.calc_cvts 0 (-1) = 0
    ∧ Eq_21.calc_cvts ∈ all_cvts_unclamped 1 ∧ Eq_21.calc_cvts 0 (-1) = 0
    ∧ Eq_1.calc_tarif ∈ all_tarif ∧ Eq_1.calc_tarif 0 (-1) = 0
    ∧ Eq_1.calc_cvt ∈ all_cvt ∧ Eq_1.calc_cvt 0 (-1) = 0
    ∧ HardwoodVolumeEquation.calc_xint8 (fun _ _ => 1) (fun _ _ => 1) 0 (-1) = 0 :=
  ⟨⟨by norm_num, by norm_num, by norm_num, by norm_num, le_refl 0, Or.inl (by norm_num)⟩,
   by simp [all_cv4],
   (C7_zero_boundaries 0 (-1) 1).1 (by norm_num) Eq_1.calc_cv4 (by simp [all_cv4]),
   by simp [all_cv8],
   (C7_zero_boundaries 0 (-1) 1).2.1 (by norm_num) Eq_26.calc_cv8 (by simp [all_cv8]),
   by simp [all_cvts],
   (C7_zero_boundaries 0 (-1) 1).2.2.1 (by norm_num) Eq_25.calc_cvts (by simp [all_cvts]),
   by simp [all_cvts_unclamped],
   (C7_zero_boundaries 0 (-1) 1).2.2.2.1 (by norm_num) Eq_21.calc_cvts
     (by simp [all_cvts_unclamped]),
   by simp [all_tarif],
   (C7_zero_boundaries 0 (-1) 1).2.2.2.2.1 le_rfl Eq_1.calc_tarif (by simp [all_tarif]),
   by simp [all_cvt],
   (C7_zero_boundaries 0 (-1) 1).2.2.2.2.2.1 (by norm_num) Eq_1.calc_cvt (by simp [all_cvt]),
   (((C7_zero_boundaries 0 (-1) 1).2.2.2.2.2.2 (fun _ _ => 1) (fun _ _ => 1)).2
     (Or.inr (by norm_num))).2⟩


end
